import Mathlib

/-!
Verification development for the STUDENTS-COMPANION statistics backend.

The Python modules under `backend/` are shallowly embedded here:

* Python floats are modelled as rationals (`ℚ`); a float computation whose
  result is not a finite number (NaN from a 0/0 or a too-small sample, or an
  infinity from x/0) is modelled by `none` in `Qn := Option ℚ`, and float
  arithmetic on such values propagates `none` exactly as IEEE NaN propagates.
* Python dict results (the "result records") are modelled by the JSON-like
  inductive `Val`; a dict literal is an ordered field list, as in the source.
* Calls into scipy / statsmodels / sklearn (t statistics, p-values, fitted
  models, ...) are inputs to the embedded functions: an oracle record holds
  the value each library call returns, wrapped in `Except String` where the
  call can raise.  Everything the repository itself computes (group splitting,
  missing-data removal, variances, effect sizes, rounding, record assembly,
  branching) is embedded faithfully from the source.
* `np.sqrt` is modelled by `ratSqrt`, exact on perfect-square rationals (the
  only points where a verified value flows through a square root) and an
  integer-square-root approximation elsewhere; `sqrtn` returns `none` (NaN)
  on negative inputs as NumPy does.
* Python's `round(x, n)` (bankers' rounding, half to even) is `pyround`.
-/

/-! ## Rounding: Python round(x, nd), half to even -/

/-- Round a rational to the nearest integer, ties to even — the rounding of
Python's built-in `round`. -/
def half_even (x : ℚ) : ℤ :=
  let f := ⌊x⌋
  if x - f < 1/2 then f
  else if (1 : ℚ)/2 < x - f then f + 1
  else if f % 2 = 0 then f else f + 1

/-- Python's `round(x, nd)` on the rational model of a float. -/
def pyround (x : ℚ) (nd : ℕ) : ℚ :=
  (half_even (x * (10 ^ nd : ℕ))) / ((10 ^ nd : ℕ) : ℚ)

/-- `round(x, 4)` — the rounding the statistics module applies to nearly
every numeric field of a result record. -/
def round4 (x : ℚ) : ℚ := pyround x 4

/-- `round(x, 2)` — used for the expected-cell table of the chi-square test
and for percentage fields. -/
def round2 (x : ℚ) : ℚ := pyround x 2

/-! ## NaN-aware float model -/

/-- A float value: `some q` a finite number, `none` a NaN/non-finite result. -/
abbrev Qn := Option ℚ

def addn : Qn → Qn → Qn
  | some a, some b => some (a + b)
  | _, _ => none

def subn : Qn → Qn → Qn
  | some a, some b => some (a - b)
  | _, _ => none

def muln : Qn → Qn → Qn
  | some a, some b => some (a * b)
  | _, _ => none

/-- Division; a zero divisor gives a non-finite float (inf or NaN), `none`. -/
def divn : Qn → Qn → Qn
  | some a, some b => if b = 0 then none else some (a / b)
  | _, _ => none

/-- Integer square root by descending scan (structural, so it evaluates by
`rfl`): the largest `k ≤ fuel` with `k * k ≤ n`. -/
def sqrtDown (n : ℕ) : ℕ → ℕ
  | 0 => 0
  | k + 1 => if (k + 1) * (k + 1) ≤ n then k + 1 else sqrtDown n k

def natSqrt (n : ℕ) : ℕ := sqrtDown n n

/-- Model of `np.sqrt` on nonnegative rationals: exact when numerator and
denominator are perfect squares (every claim-relevant use), an integer-root
approximation otherwise. -/
def ratSqrt (q : ℚ) : ℚ := (natSqrt q.num.toNat : ℚ) / (natSqrt q.den : ℚ)

/-- `np.sqrt` on the float model: NaN on negative input. -/
def sqrtn : Qn → Qn
  | some a => if a < 0 then none else some (ratSqrt a)
  | none => none

/-! ## Result records: Python dicts as JSON-like values -/

/-- A Python value as the analysis layer passes it around: numbers (ints and
floats as `ℚ`), NaN, strings, booleans, `None`, 2-tuples, dicts (ordered
field lists) and lists. -/
inductive Val where
  | num (q : ℚ)
  | nan
  | str (s : String)
  | vbool (b : Bool)
  | vnull
  | pair (a b : Val)
  | obj (fs : List (String × Val))
  | arr (vs : List Val)

/-- `{'error': msg}` — the record every statistical routine returns when a
validation fails or the computation raises. -/
def errRec (msg : String) : Val := .obj [("error", .str msg)]

/-- Top-level keys of a record. -/
def topKeys : Val → List String
  | .obj fs => fs.map Prod.fst
  | _ => []

def lookupF : List (String × Val) → String → Option Val
  | [], _ => none
  | (k, v) :: rest, key => if k = key then some v else lookupF rest key

/-- Field lookup on a record. -/
def getKey : Val → String → Option Val
  | .obj fs, key => lookupF fs key
  | _, _ => none

/-- `v` is exactly an error-only record. -/
def errorOnly (v : Val) : Prop := ∃ m, v = errRec m

/-- A float rounded at record-construction time: finite values become
`round(x, nd)`, a NaN stays NaN (`round(nan, 4)` is NaN in Python). -/
def rQn (x : Qn) (nd : ℕ) : Val :=
  match x with
  | some q => .num (pyround q nd)
  | none => .nan

/-! ## List helpers shared by the analyzer (pandas operations) -/

/-- `df[[a, b]].dropna()` for a two-column selection. -/
def dropna2 {α β : Type} (rows : List (Option α × Option β)) : List (α × β) :=
  rows.filterMap (fun r =>
    match r with
    | (some a, some b) => some (a, b)
    | _ => none)

/-- `series.unique()` — first-occurrence order, as pandas returns it. -/
def uniquesAux {α : Type} [DecidableEq α] : List α → List α → List α
  | [], _ => []
  | x :: xs, seen =>
    if seen.any (fun y => y = x) then uniquesAux xs seen else x :: uniquesAux xs (seen ++ [x])

def uniques {α : Type} [DecidableEq α] (l : List α) : List α := uniquesAux l []

/-- `df_clean[df_clean[g] == label][outcome]`. -/
def groupData (cleaned : List (String × ℚ)) (label : String) : List ℚ :=
  (cleaned.filter (fun r => r.1 = label)).map Prod.snd

/-- `series.mean()`. -/
def mean (xs : List ℚ) : ℚ := xs.sum / (xs.length : ℚ)

/-- `series.var()` — pandas sample variance (ddof = 1); NaN below 2 points. -/
def pvar (xs : List ℚ) : Qn :=
  if xs.length < 2 then none
  else some (((xs.map (fun x => (x - mean xs) ^ 2)).sum) / ((xs.length : ℚ) - 1))

/-- `series.std()`. -/
def pstd (xs : List ℚ) : Qn := sqrtn (pvar xs)

/-! ## StatisticalAnalyzer helpers (statistics.py lines 29–73) -/

/-- The fixed effect-size threshold table (statistics.py lines 31–37). -/
def effect_size_thresholds (metric : String) : Option (ℚ × ℚ × ℚ) :=
  if metric = "cohens_d" then some (2/10, 5/10, 8/10)
  else if metric = "r" then some (1/10, 3/10, 5/10)
  else if metric = "eta_squared" then some (1/100, 6/100, 14/100)
  else if metric = "cramers_v" then some (1/10, 3/10, 5/10)
  else if metric = "r_squared" then some (2/100, 13/100, 26/100)
  else none

/-- `_interpret_effect_size` (lines 39–53).  On a NaN value every float
comparison is False, so control falls through to the `else`: 'large'. -/
def interpret_effect_size (value : Qn) (metric : String) : String :=
  match effect_size_thresholds metric with
  | none => "unknown"
  | some (s, m, l) =>
    match value with
    | none => "large"
    | some v =>
      if |v| < s then "negligible"
      else if |v| < m then "small"
      else if |v| < l then "medium"
      else "large"

/-- `_cohens_d` (lines 55–67): pooled-SD effect size with an explicit guard
returning 0.0 when the pooled standard deviation is zero. -/
def cohens_d (g1 g2 : List ℚ) : Qn :=
  let n1 := g1.length
  let n2 := g2.length
  let v1 := pvar g1
  let v2 := pvar g2
  let pooled_std :=
    sqrtn (divn (addn (muln (some ((n1 : ℚ) - 1)) v1) (muln (some ((n2 : ℚ) - 1)) v2))
      (some ((n1 : ℚ) + (n2 : ℚ) - 2)))
  if pooled_std = some 0 then some 0
  else divn (some (mean g1 - mean g2)) pooled_std

/-- `_cohens_d_ci` (lines 69–73); `z` is the oracle value of
`stats.norm.ppf(0.975)`. -/
def cohens_d_ci (d : Qn) (n1 n2 : ℕ) (z : ℚ) : Qn × Qn :=
  let se := sqrtn (addn (some (((n1 : ℚ) + n2) / ((n1 : ℚ) * n2)))
    (divn (muln d d) (some (2 * ((n1 : ℚ) + n2)))))
  (subn d (muln (some z) se), addn d (muln (some z) se))

/-! ## run_ttest (statistics.py lines 75–183) -/

/-- Library-call results consumed by `run_ttest`: scipy's Levene test, the
(pooled or Welch) independent t, the paired t, per-group Shapiro tests, and
the two distribution quantiles.  Calls that can raise are `Except`. -/
structure TTestOracle where
  levene : Except String (ℚ × ℚ)
  ttest_ind : Bool → Except String (ℚ × ℚ)
  ttest_rel : Except String (ℚ × ℚ)
  shapiro1 : Except String (ℚ × ℚ)
  shapiro2 : Except String (ℚ × ℚ)
  t_ppf : ℚ
  norm_ppf : ℚ

/-- `shapiro(g) if len(g) >= 3 else (None, None)` (lines 125–126). -/
def shapiroCall (r : Except String (ℚ × ℚ)) (n : ℕ) : Except String (Option (ℚ × ℚ)) :=
  if 3 ≤ n then r.map some else .ok none

/-- `shapiro_w` / `p_value` field of a normality sub-record: Python's
`round(x[i], 4) if x[i] else None` — `None` and a zero statistic are falsy. -/
def shapiroField (ng : Option (ℚ × ℚ)) (pick : (ℚ × ℚ) → ℚ) : Val :=
  match ng with
  | some wp => if pick wp = 0 then .vnull else .num (round4 (pick wp))
  | none => .vnull

/-- `'normal': p > alpha if p else None`. -/
def shapiroVerdict (ng : Option (ℚ × ℚ)) (alpha : ℚ) : Val :=
  match ng with
  | some wp => if wp.2 = 0 then .vnull else .vbool (decide (alpha < wp.2))
  | none => .vnull

/-- The success record of `run_ttest` (lines 128–180), built once the branch
has produced the statistic, p-value, label and (independent case) the Levene
results. -/
def ttest_record (test_type : String) (t p alpha : ℚ) (l0 l1 : String)
    (g1 g2 : List ℚ) (lev : Option (ℚ × ℚ)) (ng1 ng2 : Option (ℚ × ℚ))
    (t_ppf norm_ppf : ℚ) (group_var outcome_var : String) : Val :=
  let n1 := g1.length
  let n2 := g2.length
  let d := cohens_d g1 g2
  let d_ci := cohens_d_ci d n1 n2 norm_ppf
  let mean_diff := mean g1 - mean g2
  let se_diff := sqrtn (addn (divn (pvar g1) (some (n1 : ℚ))) (divn (pvar g2) (some (n2 : ℚ))))
  let diff_lo := subn (some mean_diff) (muln (some t_ppf) se_diff)
  let diff_hi := addn (some mean_diff) (muln (some t_ppf) se_diff)
  .obj [
    ("test_type", .str test_type),
    ("test_statistic", .num (round4 t)),
    ("degrees_of_freedom", .num ((n1 : ℚ) + (n2 : ℚ) - 2)),
    ("p_value", .num (round4 p)),
    ("significant", .vbool (decide (p < alpha))),
    ("alpha", .num alpha),
    ("effect_size", .obj [
      ("cohens_d", rQn d 4),
      ("ci_95", .pair (rQn d_ci.1 4) (rQn d_ci.2 4)),
      ("interpretation", .str (interpret_effect_size d "cohens_d"))]),
    ("mean_difference", .obj [
      ("value", .num (round4 mean_diff)),
      ("ci_95", .pair (rQn diff_lo 4) (rQn diff_hi 4))]),
    ("group_statistics", .obj [
      (l0, .obj [
        ("n", .num (n1 : ℚ)),
        ("mean", .num (round4 (mean g1))),
        ("std", rQn (pstd g1) 4),
        ("se", rQn (divn (pstd g1) (some (ratSqrt (n1 : ℚ)))) 4)]),
      (l1, .obj [
        ("n", .num (n2 : ℚ)),
        ("mean", .num (round4 (mean g2))),
        ("std", rQn (pstd g2) 4),
        ("se", rQn (divn (pstd g2) (some (ratSqrt (n2 : ℚ)))) 4)])]),
    ("assumptions", .obj [
      ("normality_group1", .obj [
        ("shapiro_w", shapiroField ng1 Prod.fst),
        ("p_value", shapiroField ng1 Prod.snd),
        ("normal", shapiroVerdict ng1 alpha)]),
      ("normality_group2", .obj [
        ("shapiro_w", shapiroField ng2 Prod.fst),
        ("p_value", shapiroField ng2 Prod.snd),
        ("normal", shapiroVerdict ng2 alpha)]),
      ("equal_variance", .obj [
        ("levene_stat", match lev with | some lv => .num (round4 lv.1) | none => .vnull),
        ("p_value", match lev with | some lv => .num (round4 lv.2) | none => .vnull),
        ("equal", match lev with | some lv => .vbool (decide (alpha < lv.2)) | none => .vnull)])]),
    ("variables", .obj [
      ("group", .str group_var),
      ("outcome", .str outcome_var),
      ("groups", .arr [.str l0, .str l1])])]

/-- Shapiro stage and record assembly shared by both branches
(lines 124–180): either Shapiro call may raise, which the outer
`except` turns into an error-only record. -/
def ttest_finish (test_type : String) (t p alpha : ℚ) (l0 l1 : String)
    (g1 g2 : List ℚ) (lev : Option (ℚ × ℚ)) (o : TTestOracle)
    (group_var outcome_var : String) : Val :=
  match shapiroCall o.shapiro1 g1.length with
  | .error e => errRec e
  | .ok ng1 =>
    match shapiroCall o.shapiro2 g2.length with
    | .error e => errRec e
    | .ok ng2 =>
      ttest_record test_type t p alpha l0 l1 g1 g2 lev ng1 ng2 o.t_ppf o.norm_ppf
        group_var outcome_var

/-- `run_ttest` (lines 75–183): independent or paired t-test over the rows of
the two selected columns (group value, outcome value). -/
def run_ttest (rows : List (Option String × Option ℚ)) (group_var outcome_var : String)
    (paired : Bool) (alpha : ℚ) (o : TTestOracle) : Val :=
  let df_clean := dropna2 rows
  let gs := uniques (df_clean.map Prod.fst)
  if paired then
    match gs with
    | [l0, l1] =>
      let g1 := groupData df_clean l0
      let g2 := groupData df_clean l1
      if g1.length ≠ g2.length then errRec "Paired t-test requires equal sample sizes"
      else
        match o.ttest_rel with
        | .error e => errRec e
        | .ok tp =>
          ttest_finish "Paired Samples t-test" tp.1 tp.2 alpha l0 l1 g1 g2 none o
            group_var outcome_var
    | _ => errRec "Paired t-test requires exactly 2 groups"
  else
    match gs with
    | [l0, l1] =>
      let g1 := groupData df_clean l0
      let g2 := groupData df_clean l1
      match o.levene with
      | .error e => errRec e
      | .ok lv =>
        let equal_var := decide (alpha < lv.2)
        match o.ttest_ind equal_var with
        | .error e => errRec e
        | .ok tp =>
          ttest_finish (if equal_var then "Independent Samples t-test"
              else "Independent Samples t-test (Welch's)")
            tp.1 tp.2 alpha l0 l1 g1 g2 (some lv) o group_var outcome_var
    | l => errRec ("T-test requires exactly 2 groups, found " ++ toString l.length)

/-! ## run_anova (statistics.py lines 185–281) -/

/-- Library-call results consumed by `run_anova`: `f_oneway`, the Tukey HSD
summary rows (group1, group2, meandiff, p-adj, lower, upper, reject) and
Levene's test. -/
structure AnovaOracle where
  f_oneway : Except String (ℚ × ℚ)
  tukey : Except String (List (String × String × ℚ × ℚ × ℚ × ℚ × Bool))
  levene : Except String (ℚ × ℚ)

/-- Per-group descriptive block (lines 216–224 and 706–714): n, mean, std,
standard error. -/
def groupStatsRec (g : List ℚ) : Val :=
  .obj [
    ("n", .num (g.length : ℚ)),
    ("mean", .num (round4 (mean g))),
    ("std", rQn (pstd g) 4),
    ("se", rQn (divn (pstd g) (some (ratSqrt (g.length : ℚ)))) 4)]

/-- `run_anova` (lines 185–281). -/
def run_anova (rows : List (Option String × Option ℚ)) (group_var outcome_var : String)
    (alpha : ℚ) (o : AnovaOracle) : Val :=
  let df_clean := dropna2 rows
  let gs := uniques (df_clean.map Prod.fst)
  if gs.length < 3 then errRec "ANOVA requires 3 or more groups. Use t-test for 2 groups."
  else
    match o.f_oneway with
    | .error e => errRec e
    | .ok fp =>
      let outcomes := df_clean.map Prod.snd
      let grand_mean := mean outcomes
      let ss_between := (gs.map (fun g =>
        let gd := groupData df_clean g
        (gd.length : ℚ) * (mean gd - grand_mean) ^ 2)).sum
      let ss_total := (outcomes.map (fun x => (x - grand_mean) ^ 2)).sum
      let eta_squared := if 0 < ss_total then ss_between / ss_total else 0
      let n_total := df_clean.length
      let k := gs.length
      let ms_within := divn (some (ss_total - ss_between)) (some ((n_total : ℚ) - (k : ℚ)))
      let omega_squared := divn (subn (some ss_between) (muln (some ((k : ℚ) - 1)) ms_within))
        (addn (some ss_total) ms_within)
      match o.tukey with
      | .error e => errRec e
      | .ok tk =>
        match o.levene with
        | .error e => errRec e
        | .ok lv =>
          .obj [
            ("test_type", .str "One-way ANOVA"),
            ("test_statistic", .num (round4 fp.1)),
            ("degrees_of_freedom", .obj [
              ("between", .num ((k : ℚ) - 1)),
              ("within", .num ((n_total : ℚ) - (k : ℚ)))]),
            ("p_value", .num (round4 fp.2)),
            ("significant", .vbool (decide (fp.2 < alpha))),
            ("alpha", .num alpha),
            ("effect_size", .obj [
              ("eta_squared", .num (round4 eta_squared)),
              ("omega_squared", rQn omega_squared 4),
              ("interpretation", .str (interpret_effect_size (some eta_squared) "eta_squared"))]),
            ("group_statistics", .obj (gs.map (fun g => (g, groupStatsRec (groupData df_clean g))))),
            ("posthoc", .obj [
              ("method", .str "Tukey HSD"),
              ("comparisons", .arr (tk.map (fun row => .obj [
                ("group1", .str row.1),
                ("group2", .str row.2.1),
                ("mean_diff", .num (round4 row.2.2.1)),
                ("p_adj", .num (round4 row.2.2.2.1)),
                ("ci_lower", .num (round4 row.2.2.2.2.1)),
                ("ci_upper", .num (round4 row.2.2.2.2.2.1)),
                ("significant", .vbool row.2.2.2.2.2.2)])))]),
            ("assumptions", .obj [
              ("homogeneity_of_variance", .obj [
                ("levene_stat", .num (round4 lv.1)),
                ("p_value", .num (round4 lv.2)),
                ("equal", .vbool (decide (alpha < lv.2)))])]),
            ("variables", .obj [
              ("group", .str group_var),
              ("outcome", .str outcome_var),
              ("groups", .arr (gs.map .str))])]

/-! ## run_chisquare (statistics.py lines 283–347) -/

/-- Code-point comparison of strings, the order `pd.crosstab` sorts labels in. -/
def strLtB (a b : String) : Bool :=
  go a.data b.data
where
  go : List Char → List Char → Bool
  | [], [] => false
  | [], _ :: _ => true
  | _ :: _, [] => false
  | c :: cs, d :: ds => if c.val < d.val then true else if d.val < c.val then false else go cs ds

def insertStr (x : String) : List String → List String
  | [] => [x]
  | y :: ys => if strLtB x y then x :: y :: ys else y :: insertStr x ys

/-- Ascending insertion sort on strings. -/
def sortStr : List String → List String
  | [] => []
  | x :: xs => insertStr x (sortStr xs)

/-- One cell's contribution to the chi-square statistic with Yates' continuity
correction, as scipy applies it for one degree of freedom: the observed count
is moved toward the expected one by `min(1/2, |e - o|)`, so the numerator is
`max(|o - e| - 1/2, 0)` squared. -/
def yatesTerm (o e : ℚ) : ℚ := max (|o - e| - 1/2) 0 ^ 2 / e

/-- Plain chi-square cell contribution. -/
def plainTerm (o e : ℚ) : ℚ := (o - e) ^ 2 / e

/-- Library-call results consumed by `run_chisquare`: the chi-square p-value
(the statistic, dof and expected counts the embedding computes exactly), the
message of the raise on an empty table, and `fisher_exact`. -/
structure ChisqOracle where
  chi2_p : ℚ
  empty_msg : String
  fisher : Except String (ℚ × ℚ)

/-- Minimum of a list of rationals (0 for an empty list, unreached). -/
def qmin : List ℚ → ℚ
  | [] => 0
  | [x] => x
  | x :: y :: rest => min x (qmin (y :: rest))

/-- `round(x, 4) if x else None` — `phi` and `odds_ratio` are emitted only
when truthy (`None` and `0.0` are falsy). -/
def truthyNumField (x : Option ℚ) : Val :=
  match x with
  | some v => if v = 0 then .vnull else .num (round4 v)
  | none => .vnull

/-- The success record of `run_chisquare` (lines 313–344), parameterized by
the computed table data and the branch outcome (test label, reported p-value,
odds ratio). -/
def chisq_record (test_type : String) (p : ℚ) (odds : Option ℚ)
    (rowLabels colLabels : List String) (count : String → String → ℕ)
    (expected : String → String → ℚ) (expList : List ℚ) (chi2 : ℚ) (dof n : ℕ)
    (use_fisher : Bool) (alpha : ℚ) (var1 var2 : String) : Val :=
  let is2x2 := rowLabels.length = 2 ∧ colLabels.length = 2
  let min_dim := min (rowLabels.length - 1) (colLabels.length - 1)
  let cramers_v := if 0 < min_dim then ratSqrt (chi2 / ((n : ℚ) * (min_dim : ℚ))) else 0
  let phi := if is2x2 then some (ratSqrt (chi2 / (n : ℚ))) else none
  .obj [
    ("test_type", .str test_type),
    ("test_statistic", .num (round4 chi2)),
    ("degrees_of_freedom", .num (dof : ℚ)),
    ("p_value", .num (round4 p)),
    ("significant", .vbool (decide (p < alpha))),
    ("alpha", .num alpha),
    ("effect_size", .obj [
      ("cramers_v", .num (round4 cramers_v)),
      ("phi", truthyNumField phi),
      ("odds_ratio", truthyNumField odds),
      ("interpretation", .str (interpret_effect_size (some cramers_v) "cramers_v"))]),
    ("contingency_table", .obj [
      ("observed", .obj (colLabels.map (fun c =>
        (c, .obj (rowLabels.map (fun r => (r, .num (count r c : ℚ)))))))),
      ("expected", .obj (colLabels.map (fun c =>
        (c, .obj (rowLabels.map (fun r => (r, .num (round2 (expected r c)))))))))]),
    ("sample_size", .num (n : ℚ)),
    ("assumptions", .obj [
      ("expected_cell_counts", .obj [
        ("min_expected", .num (round2 (qmin expList))),
        ("cells_below_5", .num ((expList.filter (fun e => decide (e < 5))).length : ℚ)),
        ("fisher_recommended", .vbool use_fisher)])]),
    ("variables", .obj [
      ("variable1", .str var1),
      ("variable2", .str var2)])]

/-- `run_chisquare` (lines 283–347): contingency table, automatic Fisher
substitution on a sparse 2×2 table, Cramér's V. -/
def run_chisquare (rows : List (Option String × Option String)) (var1 var2 : String)
    (alpha : ℚ) (o : ChisqOracle) : Val :=
  let df_clean := dropna2 rows
  let rowLabels := sortStr (uniques (df_clean.map Prod.fst))
  let colLabels := sortStr (uniques (df_clean.map Prod.snd))
  let count := fun (r c : String) => (df_clean.filter (fun p => p.1 = r ∧ p.2 = c)).length
  let rowTot := fun (r : String) => (df_clean.filter (fun p => p.1 = r)).length
  let colTot := fun (c : String) => (df_clean.filter (fun p => p.2 = c)).length
  let n := df_clean.length
  if n = 0 then errRec o.empty_msg
  else
    let expected := fun (r c : String) => (rowTot r : ℚ) * (colTot c : ℚ) / (n : ℚ)
    let expList := rowLabels.flatMap (fun r => colLabels.map (fun c => expected r c))
    let dof := (rowLabels.length - 1) * (colLabels.length - 1)
    let chi2 := (rowLabels.flatMap (fun r => colLabels.map (fun c =>
      if dof = 1 then yatesTerm (count r c : ℚ) (expected r c)
      else plainTerm (count r c : ℚ) (expected r c)))).sum
    let use_fisher := expList.any (fun e => decide (e < 5))
    if use_fisher ∧ (rowLabels.length = 2 ∧ colLabels.length = 2) then
      match o.fisher with
      | .error e => errRec e
      | .ok op =>
        chisq_record "Fisher's Exact Test" op.2 (some op.1) rowLabels colLabels count
          expected expList chi2 dof n use_fisher alpha var1 var2
    else
      chisq_record "Chi-square Test of Independence" o.chi2_p none rowLabels colLabels count
        expected expList chi2 dof n use_fisher alpha var1 var2

/-! ## run_correlation (statistics.py lines 349–414) -/

/-- Library-call results consumed by `run_correlation`; `arctanh` and `tanh`
are the transcendental maps used by the Fisher-z confidence interval. -/
structure CorrOracle where
  pearson : Except String (ℚ × ℚ)
  spearman : Except String (ℚ × ℚ)
  arctanh : ℚ → ℚ
  tanh : ℚ → ℚ

/-- `tanh` lifted to the float model (NaN in, NaN out). -/
def tanhn (f : ℚ → ℚ) : Qn → Qn
  | some x => some (f x)
  | none => none

/-- The five-band strength wording (lines 377–387). -/
def corrStrength (r : ℚ) : String :=
  if |r| < 1/10 then "negligible"
  else if |r| < 3/10 then "weak"
  else if |r| < 5/10 then "moderate"
  else if |r| < 7/10 then "strong"
  else "very strong"

/-- `run_correlation` (lines 349–414). -/
def run_correlation (rows : List (Option ℚ × Option ℚ)) (var1 var2 : String)
    (method : String) (alpha : ℚ) (o : CorrOracle) : Val :=
  let df_clean := dropna2 rows
  let n := df_clean.length
  match (if method = "pearson" then o.pearson else o.spearman) with
  | .error e => errRec e
  | .ok rp =>
    let r := rp.1
    let test_type := if method = "pearson" then "Pearson Correlation" else "Spearman Correlation"
    let z := o.arctanh r
    let se := divn (some 1) (sqrtn (some ((n : ℚ) - 3)))
    let z_lo := subn (some z) (muln (some (49/25)) se)
    let z_hi := addn (some z) (muln (some (49/25)) se)
    let r_lo := tanhn o.tanh z_lo
    let r_hi := tanhn o.tanh z_hi
    .obj [
      ("test_type", .str test_type),
      ("correlation_coefficient", .num (round4 r)),
      ("p_value", .num (round4 rp.2)),
      ("significant", .vbool (decide (rp.2 < alpha))),
      ("alpha", .num alpha),
      ("r_squared", .num (round4 (r ^ 2))),
      ("confidence_interval", .obj [
        ("ci_95", .pair (rQn r_lo 4) (rQn r_hi 4))]),
      ("interpretation", .obj [
        ("strength", .str (corrStrength r)),
        ("direction", .str (if 0 < r then "positive" else "negative")),
        ("effect_size", .str (interpret_effect_size (some r) "r"))]),
      ("sample_size", .num (n : ℚ)),
      ("variables", .obj [
        ("variable1", .str var1),
        ("variable2", .str var2)])]

/-! ## run_linear_regression (statistics.py lines 416–531) -/

/-- The fitted-model values `sm.OLS(...).fit()` exposes and the routine reads.
The per-coefficient series are indexed by position over `['const'] +
predictors`; statsmodels returns exactly one entry per column, so they are
modelled as total maps. -/
structure OLSFit where
  params : ℕ → ℚ
  bse : ℕ → ℚ
  tvalues : ℕ → ℚ
  pvalues : ℕ → ℚ
  conf_int : ℕ → ℚ × ℚ
  rsquared : ℚ
  rsquared_adj : ℚ
  fvalue : ℚ
  f_pvalue : ℚ
  aic : ℚ
  bic : ℚ

/-- Library-call results consumed by `run_linear_regression`. -/
structure OLSOracle where
  fit : Except String OLSFit
  vif : ℕ → Except String ℚ
  shapiro_resid : Except String (ℚ × ℚ)
  breusch_pagan : Except String (ℚ × ℚ)
  durbin_watson : ℚ

/-- List-wise deletion over outcome plus predictor columns (`df[all_vars]
.dropna()`): a row survives when the outcome and every predictor value are
present. -/
def dropnaRows (rows : List (Option ℚ × List (Option ℚ))) : List (ℚ × List ℚ) :=
  rows.filterMap (fun r =>
    match r.1, sequenceOpt r.2 with
    | some y, some xs => some (y, xs)
    | _, _ => none)
where
  sequenceOpt : List (Option ℚ) → Option (List ℚ)
    | [] => some []
    | none :: _ => none
    | some x :: rest => (sequenceOpt rest).map (x :: ·)

/-- Column `i` of the predictor matrix. -/
def colAt (cleaned : List (ℚ × List ℚ)) (i : ℕ) : List ℚ :=
  cleaned.map (fun r => r.2.getD i 0)

/-- One row of the coefficient table (lines 441–463).  `i` is the position in
`['const'] + predictors`; `beta` is `None` for the constant. -/
def olsCoefRec (fit : OLSFit) (i : ℕ) (var : String) (beta : Option Qn) (alpha : ℚ) : Val :=
  .obj [
    ("variable", .str var),
    ("B", .num (round4 (fit.params i))),
    ("SE", .num (round4 (fit.bse i))),
    ("beta", match beta with
      | some b => rQn b 4
      | none => .vnull),
    ("t", .num (round4 (fit.tvalues i))),
    ("p", .num (round4 (fit.pvalues i))),
    ("ci_95", .pair (.num (round4 (fit.conf_int i).1)) (.num (round4 (fit.conf_int i).2))),
    ("significant", .vbool (decide (fit.pvalues i < alpha)))]

/-- `shapiro(xs) if cond else (None, None)` — the guard the module puts in
front of each Shapiro-Wilk call (lines 125–126 and 482). -/
def shapiroCall2 (r : Except String (ℚ × ℚ)) (b : Prop) [Decidable b] :
    Except String (Option (ℚ × ℚ)) :=
  if b then r.map some else .ok none

/-- The coefficient-extraction loop (lines 440–463): one row per entry of
`['const'] + predictors`, the standardized beta computed from the column and
outcome standard deviations for every predictor and absent for the
constant. -/
def olsCoefList (fit : OLSFit) (cleaned : List (ℚ × List ℚ)) (predictors : List String)
    (alpha : ℚ) : List Val :=
  (("const" :: predictors).enum).map (fun p =>
    olsCoefRec fit p.1 p.2
      (if p.2 = "const" then none
       else some (muln (some (fit.params p.1))
         (divn (pstd (colAt cleaned (p.1 - 1))) (pstd (cleaned.map Prod.fst))))) alpha)

/-- The VIF loop (lines 466–475): one `variance_inflation_factor` call per
predictor, any of which may raise. -/
def vifRows (o : OLSOracle) (predictors : List String) : Except String (List Val) :=
  go 0 predictors
where
  go : ℕ → List String → Except String (List Val)
    | _, [] => .ok []
    | i, v :: rest =>
      match o.vif i with
      | .error e => .error e
      | .ok w =>
        match go (i + 1) rest with
        | .error e => .error e
        | .ok tail => .ok (.obj [
            ("variable", .str v),
            ("VIF", .num (round4 w)),
            ("concern", .vbool (decide (5 < w))),
            ("severe", .vbool (decide (10 < w)))] :: tail)

/-- `run_linear_regression` (lines 416–531). -/
def run_linear_regression (rows : List (Option ℚ × List (Option ℚ))) (outcome : String)
    (predictors : List String) (alpha : ℚ) (o : OLSOracle) : Val :=
  let cleaned := dropnaRows rows
  match o.fit with
  | .error e => errRec e
  | .ok fit =>
    let coefficients := olsCoefList fit cleaned predictors alpha
    match (if 1 < predictors.length then vifRows o predictors else .ok []) with
    | .error e => errRec e
    | .ok vif_data =>
      match shapiroCall2 o.shapiro_resid (cleaned.length ≤ 5000) with
      | .error e => errRec e
      | .ok sh =>
        match o.breusch_pagan with
        | .error e => errRec e
        | .ok bp =>
          let dw := o.durbin_watson
          .obj [
            ("test_type", .str (if 1 < predictors.length then "Multiple Linear Regression"
              else "Simple Linear Regression")),
            ("model_summary", .obj [
              ("r_squared", .num (round4 fit.rsquared)),
              ("r_squared_adj", .num (round4 fit.rsquared_adj)),
              ("f_statistic", .num (round4 fit.fvalue)),
              ("f_pvalue", .num (round4 fit.f_pvalue)),
              ("significant", .vbool (decide (fit.f_pvalue < alpha))),
              ("aic", .num (round4 fit.aic)),
              ("bic", .num (round4 fit.bic))]),
            ("coefficients", .arr coefficients),
            ("sample_size", .num (cleaned.length : ℚ)),
            ("effect_size", .obj [
              ("r_squared", .num (round4 fit.rsquared)),
              ("interpretation", .str (interpret_effect_size (some fit.rsquared) "r_squared"))]),
            ("multicollinearity", if vif_data.isEmpty then .vnull else .arr vif_data),
            ("assumptions", .obj [
              ("normality_of_residuals", .obj [
                ("shapiro_w", shapiroField sh Prod.fst),
                ("p_value", shapiroField sh Prod.snd),
                ("normal", shapiroVerdict sh alpha)]),
              ("homoscedasticity", .obj [
                ("breusch_pagan_stat", .num (round4 bp.1)),
                ("p_value", .num (round4 bp.2)),
                ("homoscedastic", .vbool (decide (alpha < bp.2)))]),
              ("independence", .obj [
                ("durbin_watson", .num (round4 dw)),
                ("interpretation", .str (if dw < 3/2 then "positive autocorrelation"
                  else if 5/2 < dw then "negative autocorrelation"
                  else "no autocorrelation"))])]),
            ("variables", .obj [
              ("outcome", .str outcome),
              ("predictors", .arr (predictors.map .str))])]

/-! ## run_logistic_regression (statistics.py lines 533–629) -/

/-- The fitted-model values `sm.Logit(...).fit(disp=0)` exposes and the
routine reads; `predict` is the fitted probability per row. -/
structure LogitFit where
  params : ℕ → ℚ
  bse : ℕ → ℚ
  tvalues : ℕ → ℚ
  pvalues : ℕ → ℚ
  conf_int : ℕ → ℚ × ℚ
  prsquared : ℚ
  llf : ℚ
  aic : ℚ
  bic : ℚ
  llr_pvalue : ℚ
  predict : List ℚ

/-- Library-call results consumed by `run_logistic_regression`: the fit (may
raise, e.g. perfect separation), `np.exp`, and sklearn's confusion matrix. -/
structure LogitOracle where
  fit : Except String LogitFit
  exp : ℚ → ℚ
  confusion : Except String (List (List ℤ))

/-- One row of the logistic coefficient table (lines 566–588). -/
def logitCoefRec (fit : LogitFit) (expf : ℚ → ℚ) (i : ℕ) (var : String) (alpha : ℚ) : Val :=
  .obj [
    ("variable", .str var),
    ("B", .num (round4 (fit.params i))),
    ("SE", .num (round4 (fit.bse i))),
    ("Wald", .num (round4 (fit.tvalues i ^ 2))),
    ("z", .num (round4 (fit.tvalues i))),
    ("p", .num (round4 (fit.pvalues i))),
    ("OR", .num (round4 (expf (fit.params i)))),
    ("OR_ci_95", .pair (.num (round4 (expf (fit.conf_int i).1)))
      (.num (round4 (expf (fit.conf_int i).2)))),
    ("significant", .vbool (decide (fit.pvalues i < alpha)))]

/-- The logistic coefficient-extraction loop (lines 566–588). -/
def logitCoefList (fit : LogitFit) (expf : ℚ → ℚ) (predictors : List String)
    (alpha : ℚ) : List Val :=
  (("const" :: predictors).enum).map (fun p => logitCoefRec fit expf p.1 p.2 alpha)

/-- `cm.tolist()` — the confusion matrix as nested lists of ints. -/
def confusionVal (cm : List (List ℤ)) : Val :=
  .arr (cm.map (fun row => .arr (row.map (fun (k : ℤ) => .num (k : ℚ)))))

/-- `run_logistic_regression` (lines 533–629).  The outcome column is
numeric in this model, so the `y.dtype == object` re-encoding branch
(lines 556–557) is a no-op and is not represented. -/
def run_logistic_regression (rows : List (Option ℚ × List (Option ℚ))) (outcome : String)
    (predictors : List String) (alpha : ℚ) (o : LogitOracle) : Val :=
  let cleaned := dropnaRows rows
  let y := cleaned.map Prod.fst
  let unique_vals := uniques y
  if unique_vals.length ≠ 2 then
    errRec ("Logistic regression requires binary outcome. Found " ++
      toString unique_vals.length ++ " unique values.")
  else
    match o.fit with
    | .error e => errRec e
    | .ok fit =>
      let coefficients := logitCoefList fit o.exp predictors alpha
      let predicted := fit.predict.map (fun pr => if (1 : ℚ)/2 < pr then (1 : ℚ) else 0)
      let hits := (y.zip predicted).filter (fun ab => ab.1 = ab.2)
      let accuracy := (hits.length : ℚ) / ((y.zip predicted).length : ℚ)
      match o.confusion with
      | .error e => errRec e
      | .ok cm =>
        .obj [
          ("test_type", .str "Binary Logistic Regression"),
          ("model_summary", .obj [
            ("pseudo_r_squared", .num (round4 fit.prsquared)),
            ("log_likelihood", .num (round4 fit.llf)),
            ("aic", .num (round4 fit.aic)),
            ("bic", .num (round4 fit.bic)),
            ("llr_pvalue", .num (round4 fit.llr_pvalue)),
            ("significant", .vbool (decide (fit.llr_pvalue < alpha)))]),
          ("coefficients", .arr coefficients),
          ("sample_size", .num (cleaned.length : ℚ)),
          ("classification", .obj [
            ("accuracy", .num (round4 accuracy)),
            ("confusion_matrix", confusionVal cm)]),
          ("effect_size", .obj [
            ("pseudo_r_squared", .num (round4 fit.prsquared)),
            ("interpretation", .str (if (4 : ℚ)/10 < fit.prsquared then "excellent"
              else if (2 : ℚ)/10 < fit.prsquared then "good" else "acceptable"))]),
          ("variables", .obj [
            ("outcome", .str outcome),
            ("predictors", .arr (predictors.map .str))])]

/-! ## run_mannwhitney and run_kruskal (statistics.py lines 631–736) -/

def insertQ (x : ℚ) : List ℚ → List ℚ
  | [] => [x]
  | y :: ys => if x < y then x :: y :: ys else y :: insertQ x ys

/-- Ascending insertion sort on rationals. -/
def sortQ : List ℚ → List ℚ
  | [] => []
  | x :: xs => insertQ x (sortQ xs)

/-- pandas `series.quantile(q)` with the default linear interpolation:
with the data sorted, the value at fractional position `(n - 1) * q`. -/
def quantile (xs : List ℚ) (q : ℚ) : ℚ :=
  let s := sortQ xs
  let n := s.length
  if n = 0 then 0
  else
    let h : ℚ := ((n : ℚ) - 1) * q
    let lo : ℕ := (⌊h⌋).toNat
    let frac : ℚ := h - ⌊h⌋
    let a := s.getD lo 0
    let b := s.getD (lo + 1) a
    a + frac * (b - a)

/-- `series.median()`. -/
def median (xs : List ℚ) : ℚ := quantile xs (1/2)

/-- Per-group descriptive block of the rank tests (lines 662–673, 707–714):
n, median, inter-quartile range. -/
def rankGroupRec (g : List ℚ) : Val :=
  .obj [
    ("n", .num (g.length : ℚ)),
    ("median", .num (round4 (median g))),
    ("iqr", .num (round4 (quantile g (3/4) - quantile g (1/4))))]

/-- `run_mannwhitney` (lines 631–682); the oracle is scipy's two-sided
`mannwhitneyu`. -/
def run_mannwhitney (rows : List (Option String × Option ℚ)) (group_var outcome_var : String)
    (alpha : ℚ) (u_oracle : Except String (ℚ × ℚ)) : Val :=
  let df_clean := dropna2 rows
  let gs := uniques (df_clean.map Prod.fst)
  match gs with
  | [l0, l1] =>
    let g1 := groupData df_clean l0
    let g2 := groupData df_clean l1
    match u_oracle with
    | .error e => errRec e
    | .ok up =>
      let n1 := g1.length
      let n2 := g2.length
      let r := 1 - (2 * up.1) / ((n1 : ℚ) * (n2 : ℚ))
      .obj [
        ("test_type", .str "Mann-Whitney U Test"),
        ("test_statistic", .num (round4 up.1)),
        ("p_value", .num (round4 up.2)),
        ("significant", .vbool (decide (up.2 < alpha))),
        ("alpha", .num alpha),
        ("effect_size", .obj [
          ("rank_biserial_r", .num (round4 r)),
          ("interpretation", .str (interpret_effect_size (some r) "r"))]),
        ("group_statistics", .obj [
          (l0, rankGroupRec g1),
          (l1, rankGroupRec g2)]),
        ("variables", .obj [
          ("group", .str group_var),
          ("outcome", .str outcome_var),
          ("groups", .arr [.str l0, .str l1])])]
  | l => errRec ("Mann-Whitney U requires exactly 2 groups, found " ++ toString l.length)

/-- `run_kruskal` (lines 684–736); the oracle is scipy's `kruskal`. -/
def run_kruskal (rows : List (Option String × Option ℚ)) (group_var outcome_var : String)
    (alpha : ℚ) (h_oracle : Except String (ℚ × ℚ)) : Val :=
  let df_clean := dropna2 rows
  let gs := uniques (df_clean.map Prod.fst)
  if gs.length < 3 then
    errRec "Kruskal-Wallis requires 3 or more groups. Use Mann-Whitney U for 2 groups."
  else
    match h_oracle with
    | .error e => errRec e
    | .ok hp =>
      let n := df_clean.length
      let k := gs.length
      let epsilon_sq := hp.1 / ((n : ℚ) - 1)
      .obj [
        ("test_type", .str "Kruskal-Wallis H Test"),
        ("test_statistic", .num (round4 hp.1)),
        ("degrees_of_freedom", .num ((k : ℚ) - 1)),
        ("p_value", .num (round4 hp.2)),
        ("significant", .vbool (decide (hp.2 < alpha))),
        ("alpha", .num alpha),
        ("effect_size", .obj [
          ("epsilon_squared", .num (round4 epsilon_sq)),
          ("interpretation", .str (interpret_effect_size (some epsilon_sq) "eta_squared"))]),
        ("group_statistics", .obj (gs.map (fun g => (g, rankGroupRec (groupData df_clean g))))),
        ("variables", .obj [
          ("group", .str group_var),
          ("outcome", .str outcome_var),
          ("groups", .arr (gs.map .str))])]

/-! ## AssumptionChecker.check_normality (assumptions.py lines 23–79) -/

/-- Library-call results consumed by `check_normality`: Shapiro-Wilk (run for
3 ≤ n ≤ 5000, a raise propagates), D'Agostino-Pearson (run for n ≥ 20, a
raise is swallowed by the inner `try`), and pandas' skewness/kurtosis (NaN
when the sample is too small — below 3 resp. 4 points). -/
structure NormalityOracle where
  shapiro : Except String (ℚ × ℚ)
  dagostino : Except String (ℚ × ℚ)
  skw : Qn
  kurt : Qn

/-- `check_normality` (assumptions.py lines 23–79). -/
def check_normality (data : List (Option ℚ)) (variable_name : Option String)
    (alpha : ℚ) (o : NormalityOracle) : Val :=
  let d := data.filterMap id
  let n := d.length
  match (if 3 ≤ n ∧ n ≤ 5000 then o.shapiro.map some else .ok none) with
  | .error e => errRec e
  | .ok sh =>
    let shEntries : List (String × Val) :=
      match sh with
      | some wp => [("shapiro_wilk", .obj [
          ("statistic", .num (round4 wp.1)),
          ("p_value", .num (round4 wp.2)),
          ("normal", .vbool (decide (alpha < wp.2)))])]
      | none => []
    let dgEntries : List (String × Val) :=
      if 20 ≤ n then
        match o.dagostino with
        | .ok dp => [("dagostino_pearson", .obj [
            ("statistic", .num (round4 dp.1)),
            ("p_value", .num (round4 dp.2)),
            ("normal", .vbool (decide (alpha < dp.2)))])]
        | .error _ => []
      else []
    let shVerdicts : List Bool :=
      match sh with
      | some wp => [decide (alpha < wp.2)]
      | none => []
    let dgVerdicts : List Bool :=
      if 20 ≤ n then
        match o.dagostino with
        | .ok dp => [decide (alpha < dp.2)]
        | .error _ => []
      else []
    let test_results := shVerdicts ++ dgVerdicts
    .obj [
      ("variable", match variable_name with
        | some s => .str s
        | none => .vnull),
      ("sample_size", .num (n : ℚ)),
      ("tests", .obj (shEntries ++ dgEntries)),
      ("descriptive", .obj [
        ("skewness", rQn o.skw 4),
        ("kurtosis", rQn o.kurt 4),
        ("skewness_concern", .vbool (match o.skw with
          | some s => decide (2 < |s|)
          | none => false)),
        ("kurtosis_concern", .vbool (match o.kurt with
          | some k => decide (7 < |k|)
          | none => false))]),
      ("conclusion", .obj [
        ("normal", if test_results.isEmpty then .vnull else .vbool (test_results.all id)),
        ("recommendation", .str (if test_results.all id then "parametric" else "non-parametric"))])]

/-! ## AuditLogger (audit.py lines 10–111) -/

/-- One audit entry (audit.py lines 24–30); `details` is the structured
detail dict. -/
structure AuditEntry where
  timestamp : String
  action : String
  details : Val
  user : String
  entry_number : ℕ

/-- The operations of `AuditLogger` that touch or read `self.entries`. -/
inductive AuditOp where
  | log (now action : String) (details : Val) (user : String)
  | get_log
  | get_summary
  | export_markdown
  | export_json
  | clear
  | undo_last

/-- State transition of `self.entries` under each operation: `log` appends
(lines 20–32), `clear` resets to `[]` (lines 99–103), `undo_last` pops the
last entry when one exists (lines 105–111), the read-only exports leave the
list as is. -/
def auditStep (es : List AuditEntry) : AuditOp → List AuditEntry
  | .log now action details user =>
    es ++ [{ timestamp := now, action := action, details := details, user := user,
             entry_number := es.length + 1 }]
  | .get_log => es
  | .get_summary => es
  | .export_markdown => es
  | .export_json => es
  | .clear => []
  | .undo_last => es.dropLast

/-! ## AIInterpreter (interpreter.py lines 20–158) -/

/-- Configuration read from the environment at construction (lines 27–28). -/
structure InterpreterEnv where
  deepseek_api_key : String
  gemini_api_key : String

/-- Network responses: what each provider call would hand back — `some text`
models an HTTP 200 with a well-formed body, `none` any failure (non-200,
timeout, exception, malformed body), matching the `Optional[str]` the private
call helpers return. -/
structure NetOracle where
  deepseek : Option String
  gemini : String → Option String

/-- `_call_deepseek` (lines 32–63): an empty key short-circuits to `None`. -/
def call_deepseek (env : InterpreterEnv) (o : NetOracle) : Option String :=
  if env.deepseek_api_key = "" then none else o.deepseek

/-- `_call_gemini` (lines 65–99): an empty key short-circuits; otherwise the
two model names are tried in order, any per-model failure falling through to
the next. -/
def call_gemini (env : InterpreterEnv) (o : NetOracle) : Option String :=
  if env.gemini_api_key = "" then none
  else
    match o.gemini "gemini-3-flash-preview" with
    | some r => some r
    | none => o.gemini "gemini-2.5-flash"

/-- The fixed template `_generate_fallback_interpretation` returns
(lines 147–158). -/
def fallback_interpretation : String :=
  "\n**Interpretation (AI temporarily unavailable):**\n\nThe statistical results have been calculated accurately by Python. Please review:\n- The p-value to determine statistical significance (p < 0.05 is significant)\n- The effect size to understand practical significance\n- The confidence intervals for precision of estimates\n\nFor a complete narrative interpretation, please retry when AI services are available.\n"

/-- Python truthiness of an `Optional[str]`: `None` and `''` are falsy. -/
def truthyStr : Option String → Bool
  | some s => s ≠ ""
  | none => false

/-- `interpret` (lines 101–145): DeepSeek, then Gemini, then the hardcoded
template — never an exception.  The prompt and system-prompt flag only shape
the request payload, which the network oracle already abstracts. -/
def interpret (env : InterpreterEnv) (o : NetOracle) : Val :=
  let r1 := call_deepseek env o
  if truthyStr r1 then
    .obj [
      ("success", .vbool true),
      ("interpretation", .str (r1.getD "")),
      ("model", .str "deepseek-reasoner")]
  else
    let r2 := call_gemini env o
    if truthyStr r2 then
      .obj [
        ("success", .vbool true),
        ("interpretation", .str (r2.getD "")),
        ("model", .str "gemini-flash")]
    else
      .obj [
        ("success", .vbool false),
        ("interpretation", .str fallback_interpretation),
        ("model", .str "fallback-template"),
        ("error", .str "Both AI services unavailable. Using template response.")]

/-! ## DataVersionManager (audit.py lines 114–163) -/

/-- A pandas DataFrame: column names and row-major cells. -/
structure DataFrame where
  cols : List String
  cells : List (List ℚ)

/-- The Python object heap, as far as DataFrames are concerned: references
are addresses, `df.copy()` allocates a fresh address with equal contents. -/
structure Mem where
  store : ℕ → DataFrame
  next : ℕ

def memRead (m : Mem) (r : ℕ) : DataFrame := m.store r

/-- In-place mutation of the frame at `r`. -/
def memWrite (m : Mem) (r : ℕ) (df : DataFrame) : Mem :=
  ⟨fun i => if i = r then df else m.store i, m.next⟩

/-- Allocation of a fresh frame (what `df.copy()` does). -/
def memAlloc (m : Mem) (df : DataFrame) : Mem × ℕ :=
  (⟨fun i => if i = m.next then df else m.store i, m.next + 1⟩, m.next)

def dfShape (df : DataFrame) : ℕ × ℕ := (df.cells.length, df.cols.length)

/-- Stored version metadata (audit.py lines 129–135): the snapshot reference
plus timestamp, description, shape, columns. -/
structure VersionInfo where
  dataRef : ℕ
  timestamp : String
  description : Option String
  shape : ℕ × ℕ
  columns : List String

/-- `self.versions` and `self.current_version`. -/
structure DataVersionManager where
  versions : List (String × VersionInfo)
  current_version : Option String

/-- Python dict assignment `d[k] = v`: replace in place or append. -/
def dictSet : List (String × VersionInfo) → String → VersionInfo → List (String × VersionInfo)
  | [], k, v => [(k, v)]
  | (k0, v0) :: rest, k, v =>
    if k0 = k then (k, v) :: rest else (k0, v0) :: dictSet rest k v

def vlookup : List (String × VersionInfo) → String → Option VersionInfo
  | [], _ => none
  | (k0, v0) :: rest, k => if k0 = k then some v0 else vlookup rest k

/-- `save_version` (audit.py lines 123–143): stores `df.copy()` under the
version name and returns the summary record. -/
def save_version (mgr : DataVersionManager) (m : Mem) (dfRef : ℕ) (version_name : String)
    (description : Option String) (now : String) : DataVersionManager × Mem × Val :=
  let df := memRead m dfRef
  let alloc := memAlloc m df
  let info : VersionInfo :=
    { dataRef := alloc.2, timestamp := now, description := description,
      shape := dfShape df, columns := df.cols }
  let mgr2 : DataVersionManager :=
    { versions := dictSet mgr.versions version_name info, current_version := some version_name }
  (mgr2, alloc.1, .obj [
    ("version", .str version_name),
    ("rows", .num ((dfShape df).1 : ℚ)),
    ("columns", .num ((dfShape df).2 : ℚ)),
    ("saved_at", .str now)])

/-- `get_version` (audit.py lines 145–151): a copy of the stored snapshot for
a known name, `None` (no raise) for an unknown one. -/
def get_version (mgr : DataVersionManager) (m : Mem) (version_name : String) :
    Mem × Option ℕ :=
  match vlookup mgr.versions version_name with
  | some info =>
    let alloc := memAlloc m (memRead m info.dataRef)
    (alloc.1, some alloc.2)
  | none => (m, none)

/-! ## Lookup helpers, rounding predicates and concrete inputs used by the theorems -/

/-- Path lookup through nested records. -/
def getPath (v : Val) : List String → Option Val
  | [] => some v
  | k :: ks =>
    match getKey v k with
    | some w => getPath w ks
    | none => none

def wrows : List (Option String × Option ℚ) :=
  [(some "a", some 1), (some "a", some 2), (some "b", some 3), (some "b", some 5)]

def wo : TTestOracle :=
  { levene := .ok (1/2, 3/5), ttest_ind := fun _ => .ok (-2, 3/100), ttest_rel := .ok (0, 0),
    shapiro1 := .ok (97/100, 6/10), shapiro2 := .ok (98/100, 7/10), t_ppf := 3, norm_ppf := 2 }

def wrows3 : List (Option String × Option ℚ) :=
  [(some "a", some 1), (none, some 9), (some "a", none), (some "a", some 2),
   (some "b", some 3), (some "b", some 5)]

def ent1 : AuditEntry :=
  { timestamp := "t1", action := "impute", details := .vnull, user := "system", entry_number := 1 }

def ent2 : AuditEntry :=
  { timestamp := "t2", action := "winsorize", details := .vnull, user := "system", entry_number := 2 }

def wmgr : DataVersionManager := { versions := [], current_version := none }

def wmem : Mem := { store := fun _ => { cols := ["c"], cells := [[1], [2]] }, next := 1 }

def crows : List (Option String × Option String) :=
  List.replicate 10 (some "a", some "x") ++ List.replicate 10 (some "b", some "y")

def c5rows : List (Option String × Option String) :=
  (some "a", some "x") :: List.replicate 2 (some "a", some "y")
    ++ List.replicate 3 (some "b", some "x") ++ List.replicate 5 (some "b", some "y")

mutual
/-- Every numeric leaf is a fixed point of 2-decimal rounding. -/
def r2v : Val → Bool
  | .num q => round2 q == q
  | .nan => true
  | .str _ => true
  | .vbool _ => true
  | .vnull => true
  | .pair a b => r2v a && r2v b
  | .obj fs => r2F fs
  | .arr vs => r2L vs
def r2F : List (String × Val) → Bool
  | [] => true
  | (_, v) :: rest => r2v v && r2F rest
def r2L : List Val → Bool
  | [] => true
  | v :: rest => r2v v && r2L rest
end

mutual
/-- The rounding discipline of the result records: every numeric leaf is a
fixed point of 4-decimal rounding, except that the `alpha` echo at the top
level of a record is stored as given, and the `expected` table and
`min_expected` value of the association test carry 2-decimal values.
`parent` is the key under which the value sits (`"top"` for the record
itself), which keeps the exceptions anchored to their place in the record
rather than to any equally-named data label. -/
def wr (parent : String) : Val → Bool
  | .num q => round4 q == q
  | .nan => true
  | .str _ => true
  | .vbool _ => true
  | .vnull => true
  | .pair a b => wr parent a && wr parent b
  | .obj fs => wrF parent fs
  | .arr vs => wrL parent vs
def wrF (parent : String) : List (String × Val) → Bool
  | [] => true
  | (k, v) :: rest =>
    (if parent = "top" ∧ k = "alpha" then true
     else if parent = "contingency_table" ∧ k = "expected" then r2v v
     else if parent = "expected_cell_counts" ∧ k = "min_expected" then r2v v
     else wr k v) && wrF parent rest
def wrL (parent : String) : List Val → Bool
  | [] => true
  | v :: rest => wr parent v && wrL parent rest
end

/-- A result record is either error-only or carries no error key at all. -/
def errorContract (v : Val) : Prop := errorOnly v ∨ "error" ∉ topKeys v

/-! ## Rounding arithmetic facts -/

theorem half_even_intCast (k : ℤ) : half_even (k : ℚ) = k := by
  simp [half_even]

theorem pyround_idem (x : ℚ) (nd : ℕ) : pyround (pyround x nd) nd = pyround x nd := by
  unfold pyround
  have h10 : ((10 ^ nd : ℕ) : ℚ) ≠ 0 := by positivity
  rw [div_mul_cancel₀ _ h10, half_even_intCast]

theorem round4_idem (x : ℚ) : round4 (round4 x) = round4 x := pyround_idem x 4

/-- A value carrying at most 2 decimal digits carries at most 4. -/
theorem round4_round2 (x : ℚ) : round4 (round2 x) = round2 x := by
  unfold round4 round2 pyround
  have : ((half_even (x * (10 ^ 2 : ℕ)) : ℚ) / ((10 ^ 2 : ℕ) : ℚ)) * ((10 ^ 4 : ℕ) : ℚ)
      = ((half_even (x * (10 ^ 2 : ℕ)) * (10 ^ 2 : ℕ) : ℤ) : ℚ) := by
    push_cast
    ring
  rw [this, half_even_intCast]
  push_cast
  field_simp
  ring

theorem round4_intCast (k : ℤ) : round4 (k : ℚ) = k := by
  unfold round4 pyround
  have : ((k : ℚ) * ((10 ^ 4 : ℕ) : ℚ)) = ((k * (10 ^ 4 : ℕ) : ℤ) : ℚ) := by push_cast; ring
  rw [this, half_even_intCast]
  push_cast
  field_simp

theorem round4_natCast (n : ℕ) : round4 (n : ℚ) = n := by
  have := round4_intCast (n : ℤ)
  push_cast at this
  exact this

/-! ## C1 — the error contract of the statistical routines -/

theorem errorContract_errRec (e : String) : errorContract (errRec e) := .inl ⟨e, rfl⟩

theorem errorContract_of_keys (v : Val) (h : "error" ∉ topKeys v) : errorContract v := .inr h

theorem ttest_errorContract (rows : List (Option String × Option ℚ)) (gv ov : String)
    (paired : Bool) (alpha : ℚ) (o : TTestOracle) :
    errorContract (run_ttest rows gv ov paired alpha o) := by
  simp only [run_ttest, ttest_finish]
  repeat' split
  all_goals first
    | exact errorContract_errRec _
    | (apply errorContract_of_keys; simp [ttest_record, topKeys])

theorem anova_errorContract (rows : List (Option String × Option ℚ)) (gv ov : String)
    (alpha : ℚ) (o : AnovaOracle) :
    errorContract (run_anova rows gv ov alpha o) := by
  simp only [run_anova]
  repeat' split
  all_goals first
    | exact errorContract_errRec _
    | (apply errorContract_of_keys; simp [topKeys])

theorem chisquare_errorContract (rows : List (Option String × Option String)) (v1 v2 : String)
    (alpha : ℚ) (o : ChisqOracle) :
    errorContract (run_chisquare rows v1 v2 alpha o) := by
  simp only [run_chisquare]
  repeat' split
  all_goals first
    | exact errorContract_errRec _
    | (apply errorContract_of_keys; simp [chisq_record, topKeys])

theorem correlation_errorContract (rows : List (Option ℚ × Option ℚ)) (v1 v2 m : String)
    (alpha : ℚ) (o : CorrOracle) :
    errorContract (run_correlation rows v1 v2 m alpha o) := by
  simp only [run_correlation]
  repeat' split
  all_goals first
    | exact errorContract_errRec _
    | (apply errorContract_of_keys; simp [topKeys])

theorem linreg_errorContract (rows : List (Option ℚ × List (Option ℚ))) (outcome : String)
    (predictors : List String) (alpha : ℚ) (o : OLSOracle) :
    errorContract (run_linear_regression rows outcome predictors alpha o) := by
  simp only [run_linear_regression]
  repeat' split
  all_goals first
    | exact errorContract_errRec _
    | (apply errorContract_of_keys; simp [topKeys])

theorem logreg_errorContract (rows : List (Option ℚ × List (Option ℚ))) (outcome : String)
    (predictors : List String) (alpha : ℚ) (o : LogitOracle) :
    errorContract (run_logistic_regression rows outcome predictors alpha o) := by
  simp only [run_logistic_regression]
  repeat' split
  all_goals first
    | exact errorContract_errRec _
    | (apply errorContract_of_keys; simp [topKeys])

theorem mannwhitney_errorContract (rows : List (Option String × Option ℚ)) (gv ov : String)
    (alpha : ℚ) (u : Except String (ℚ × ℚ)) :
    errorContract (run_mannwhitney rows gv ov alpha u) := by
  simp only [run_mannwhitney]
  repeat' split
  all_goals first
    | exact errorContract_errRec _
    | (apply errorContract_of_keys; simp [topKeys])

theorem kruskal_errorContract (rows : List (Option String × Option ℚ)) (gv ov : String)
    (alpha : ℚ) (h : Except String (ℚ × ℚ)) :
    errorContract (run_kruskal rows gv ov alpha h) := by
  simp only [run_kruskal]
  repeat' split
  all_goals first
    | exact errorContract_errRec _
    | (apply errorContract_of_keys; simp [topKeys])

theorem ttest_levene_failure (rows : List (Option String × Option ℚ)) (gv ov : String)
    (alpha : ℚ) (o : TTestOracle) (l0 l1 : String) (e : String)
    (hu : uniques ((dropna2 rows).map Prod.fst) = [l0, l1])
    (hlev : o.levene = .error e) :
    run_ttest rows gv ov false alpha o = errRec e := by
  simp [run_ttest, hu, hlev]

theorem linreg_fit_failure (rows : List (Option ℚ × List (Option ℚ))) (outcome : String)
    (predictors : List String) (alpha : ℚ) (o : OLSOracle) (e : String)
    (hf : o.fit = .error e) :
    run_linear_regression rows outcome predictors alpha o = errRec e := by
  simp [run_linear_regression, hf]

/-- C1: every statistical test routine (t-test, ANOVA, chi-square,
correlation, linear and logistic regression, Mann-Whitney, Kruskal-Wallis)
returns, on any input and any library behaviour, either a record whose sole
key is 'error' (validation failure or caught exception) or a record with no
'error' key at all — no exception escapes to the caller; and a caught
computational failure is converted into exactly the error-only record
carrying the exception's message (shown here for the two-sample test's
Levene call and for the regression fit). -/
theorem statistical_tests_error_contract :
    (∀ rows gv ov paired alpha o, errorContract (run_ttest rows gv ov paired alpha o)) ∧
    (∀ rows gv ov alpha o, errorContract (run_anova rows gv ov alpha o)) ∧
    (∀ rows v1 v2 alpha o, errorContract (run_chisquare rows v1 v2 alpha o)) ∧
    (∀ rows v1 v2 m alpha o, errorContract (run_correlation rows v1 v2 m alpha o)) ∧
    (∀ rows outcome predictors alpha o,
      errorContract (run_linear_regression rows outcome predictors alpha o)) ∧
    (∀ rows outcome predictors alpha o,
      errorContract (run_logistic_regression rows outcome predictors alpha o)) ∧
    (∀ rows gv ov alpha u, errorContract (run_mannwhitney rows gv ov alpha u)) ∧
    (∀ rows gv ov alpha h, errorContract (run_kruskal rows gv ov alpha h)) ∧
    (∀ rows gv ov alpha o l0 l1 e, uniques ((dropna2 rows).map Prod.fst) = [l0, l1] →
      o.levene = .error e → run_ttest rows gv ov false alpha o = errRec e) ∧
    (∀ rows outcome predictors alpha o e, o.fit = .error e →
      run_linear_regression rows outcome predictors alpha o = errRec e) :=
  ⟨ttest_errorContract, anova_errorContract, chisquare_errorContract,
    correlation_errorContract, linreg_errorContract, logreg_errorContract,
    mannwhitney_errorContract, kruskal_errorContract,
    fun rows gv ov alpha o l0 l1 e hu hl => ttest_levene_failure rows gv ov alpha o l0 l1 e hu hl,
    fun rows outcome predictors alpha o e hf =>
      linreg_fit_failure rows outcome predictors alpha o e hf⟩

/-! ## C2, C3 — the independent t-test branch -/

theorem shapiroCall_ok (r : Except String (ℚ × ℚ)) (n : ℕ) (wp : ℚ × ℚ) (h : r = .ok wp) :
    shapiroCall r n = .ok (if 3 ≤ n then some wp else none) := by
  unfold shapiroCall
  split <;> simp [h, Except.map]

/-- C2: in the independent branch the pooled-versus-Welch choice is made by
Levene's test gated on α (pooled when the Levene p-value exceeds α, Welch
otherwise): the reported label names the chosen variant, the reported
statistic is the one scipy computes for exactly that choice of `equal_var`,
and the Levene statistic, p-value and verdict appear in the record. -/
theorem run_ttest_variance_gate (rows : List (Option String × Option ℚ)) (gv ov : String)
    (alpha : ℚ) (o : TTestOracle) (l0 l1 : String) (ls lp t p : ℚ) (s1 s2 : ℚ × ℚ)
    (hu : uniques ((dropna2 rows).map Prod.fst) = [l0, l1])
    (hlev : o.levene = .ok (ls, lp))
    (htt : o.ttest_ind (decide (alpha < lp)) = .ok (t, p))
    (hs1 : o.shapiro1 = .ok s1) (hs2 : o.shapiro2 = .ok s2) :
    getKey (run_ttest rows gv ov false alpha o) "test_type"
      = some (.str (if alpha < lp then "Independent Samples t-test"
        else "Independent Samples t-test (Welch's)")) ∧
    getKey (run_ttest rows gv ov false alpha o) "test_statistic" = some (.num (round4 t)) ∧
    getPath (run_ttest rows gv ov false alpha o) ["assumptions", "equal_variance", "levene_stat"]
      = some (.num (round4 ls)) ∧
    getPath (run_ttest rows gv ov false alpha o) ["assumptions", "equal_variance", "p_value"]
      = some (.num (round4 lp)) ∧
    getPath (run_ttest rows gv ov false alpha o) ["assumptions", "equal_variance", "equal"]
      = some (.vbool (decide (alpha < lp))) := by
  have h1 := shapiroCall_ok o.shapiro1 (groupData (dropna2 rows) l0).length s1 hs1
  have h2 := shapiroCall_ok o.shapiro2 (groupData (dropna2 rows) l1).length s2 hs2
  simp only [run_ttest, ttest_finish, hu, hlev, htt, h1, h2, Bool.false_eq_true, if_false]
  simp [ttest_record, getPath, getKey, lookupF, decide_eq_true_eq]

/-- C3: the reported degrees of freedom of the independent two-sample test is
`n1 + n2 - 2` for the post-exclusion group sizes, in the pooled and the Welch
branch alike (the Levene p-value `lp`, hence the branch, is arbitrary). -/
theorem run_ttest_df (rows : List (Option String × Option ℚ)) (gv ov : String)
    (alpha : ℚ) (o : TTestOracle) (l0 l1 : String) (ls lp t p : ℚ) (s1 s2 : ℚ × ℚ)
    (hu : uniques ((dropna2 rows).map Prod.fst) = [l0, l1])
    (hlev : o.levene = .ok (ls, lp))
    (htt : o.ttest_ind (decide (alpha < lp)) = .ok (t, p))
    (hs1 : o.shapiro1 = .ok s1) (hs2 : o.shapiro2 = .ok s2) :
    getKey (run_ttest rows gv ov false alpha o) "degrees_of_freedom"
      = some (.num (((groupData (dropna2 rows) l0).length : ℚ)
        + ((groupData (dropna2 rows) l1).length : ℚ) - 2)) := by
  have h1 := shapiroCall_ok o.shapiro1 (groupData (dropna2 rows) l0).length s1 hs1
  have h2 := shapiroCall_ok o.shapiro2 (groupData (dropna2 rows) l1).length s2 hs2
  simp only [run_ttest, ttest_finish, hu, hlev, htt, h1, h2, Bool.false_eq_true, if_false]
  simp [ttest_record, getKey, lookupF]

theorem run_ttest_variance_gate_witness :
    getKey (run_ttest wrows "g" "y" false (1/20) wo) "test_type"
      = some (.str (if (1 : ℚ)/20 < 3/5 then "Independent Samples t-test"
        else "Independent Samples t-test (Welch's)")) ∧
    getKey (run_ttest wrows "g" "y" false (1/20) wo) "test_statistic"
      = some (.num (round4 (-2))) ∧
    getPath (run_ttest wrows "g" "y" false (1/20) wo) ["assumptions", "equal_variance", "levene_stat"]
      = some (.num (round4 (1/2))) ∧
    getPath (run_ttest wrows "g" "y" false (1/20) wo) ["assumptions", "equal_variance", "p_value"]
      = some (.num (round4 (3/5))) ∧
    getPath (run_ttest wrows "g" "y" false (1/20) wo) ["assumptions", "equal_variance", "equal"]
      = some (.vbool (decide ((1 : ℚ)/20 < 3/5))) :=
  run_ttest_variance_gate wrows "g" "y" (1/20) wo "a" "b" (1/2) (3/5) (-2) (3/100)
    (97/100, 6/10) (98/100, 7/10) (by with_unfolding_all rfl) rfl rfl rfl rfl

theorem run_ttest_df_witness :
    getKey (run_ttest wrows3 "g" "y" false (1/20) wo) "degrees_of_freedom"
      = some (.num (((groupData (dropna2 wrows3) "a").length : ℚ)
        + ((groupData (dropna2 wrows3) "b").length : ℚ) - 2)) :=
  run_ttest_df wrows3 "g" "y" (1/20) wo "a" "b" (1/2) (3/5) (-2) (3/100)
    (97/100, 6/10) (98/100, 7/10) (by with_unfolding_all rfl) rfl rfl rfl rfl

/-! ## C6 — the audit trail -/

/-- C6 counterexample: on a two-entry trail, `undo_last` yields a one-entry
trail.  A state reached only by appends and bulk clears from `[ent1, ent2]`
has 2, 3 or 0 entries, never 1 — so `undo_last` removes an individual
existing entry, contradicting the claim. -/
theorem audit_undo_counterexample :
    auditStep [ent1, ent2] .undo_last = [ent1] ∧
    (auditStep [ent1, ent2] .undo_last).length = 1 ∧
    ([ent1, ent2] : List AuditEntry).length = 2 :=
  ⟨rfl, rfl, rfl⟩

/-- C6 (amended): the audit trail changes only by appending one entry
(`log`), by the bulk `clear`, or by `undo_last` dropping the most recent
entry; every operation leaves the surviving entries unchanged (the new list
is a prefix of the old or extends it), so no operation ever alters an
existing entry in place, and no entry other than the last is ever removed. -/
theorem audit_step_shape (es : List AuditEntry) (op : AuditOp) :
    (auditStep es op = es ∨ (∃ e, auditStep es op = es ++ [e]) ∨ auditStep es op = [] ∨
      auditStep es op = es.dropLast) ∧
    (auditStep es op <+: es ∨ es <+: auditStep es op) := by
  cases op <;> simp [auditStep, List.dropLast_prefix]

/-! ## C7 — the interpreter fallback -/

/-- C7: with both provider keys empty, `interpret` returns — without raising —
exactly the failure record: `success = False`, the fixed hardcoded template
text as the interpretation, the fallback-template model marker and the
unavailability note; the network is never consulted. -/
theorem interpret_empty_keys_fallback (o : NetOracle) :
    interpret { deepseek_api_key := "", gemini_api_key := "" } o
      = .obj [
        ("success", .vbool false),
        ("interpretation", .str fallback_interpretation),
        ("model", .str "fallback-template"),
        ("error", .str "Both AI services unavailable. Using template response.")] := rfl

/-! ## C8 — normality check on two data points -/

/-- C8: on a series with exactly 2 non-missing values the normality check
runs no sub-test (Shapiro needs n ≥ 3, D'Agostino n ≥ 20): the `tests`
collection is empty, the overall `normal` conclusion is `None`, and no error
is reported. -/
theorem check_normality_two_points (data : List (Option ℚ)) (vn : Option String)
    (alpha : ℚ) (o : NormalityOracle) (hn : (data.filterMap id).length = 2) :
    getKey (check_normality data vn alpha o) "tests" = some (.obj []) ∧
    getPath (check_normality data vn alpha o) ["conclusion", "normal"] = some .vnull ∧
    getKey (check_normality data vn alpha o) "error" = none := by
  simp only [check_normality, hn]
  norm_num
  simp [getPath, getKey, lookupF]

theorem check_normality_two_points_witness :
    getKey (check_normality [some 1, some 5] (some "x") (1/20)
      { shapiro := .ok (1, 1), dagostino := .ok (1, 1), skw := none, kurt := none }) "tests"
      = some (.obj []) ∧
    getPath (check_normality [some 1, some 5] (some "x") (1/20)
      { shapiro := .ok (1, 1), dagostino := .ok (1, 1), skw := none, kurt := none })
      ["conclusion", "normal"] = some .vnull ∧
    getKey (check_normality [some 1, some 5] (some "x") (1/20)
      { shapiro := .ok (1, 1), dagostino := .ok (1, 1), skw := none, kurt := none }) "error"
      = none :=
  check_normality_two_points [some 1, some 5] (some "x") (1/20)
    { shapiro := .ok (1, 1), dagostino := .ok (1, 1), skw := none, kurt := none } rfl

/-! ## C9 — Cohen's d on zero pooled variance -/

theorem ratSqrt_zero : ratSqrt 0 = 0 := by with_unfolding_all rfl

/-- C9: whenever the weighted variance sum of two non-empty groups with
`n1 + n2 > 2` is (finite and) zero — in particular for two constant groups —
`_cohens_d` returns exactly 0.0 through its explicit guard instead of
dividing by the zero pooled standard deviation. -/
theorem cohens_d_zero_pooled (g1 g2 : List ℚ)
    (hn : 2 < g1.length + g2.length)
    (hw : addn (muln (some ((g1.length : ℚ) - 1)) (pvar g1))
      (muln (some ((g2.length : ℚ) - 1)) (pvar g2)) = some 0) :
    cohens_d g1 g2 = some 0 := by
  have hden : ((g1.length : ℚ) + (g2.length : ℚ) - 2) ≠ 0 := by
    have : (2 : ℚ) < (g1.length : ℚ) + (g2.length : ℚ) := by exact_mod_cast hn
    linarith
  simp only [cohens_d, hw, divn, if_neg hden, zero_div, sqrtn]
  norm_num [ratSqrt_zero]

theorem cohens_d_zero_pooled_witness :
    2 < ([5, 5] : List ℚ).length + ([7, 7] : List ℚ).length ∧
    cohens_d [5, 5] [7, 7] = some 0 :=
  ⟨by decide, cohens_d_zero_pooled [5, 5] [7, 7] (by decide) (by with_unfolding_all rfl)⟩

/-! ## C10 — version store isolation -/

theorem dictSet_vlookup (l : List (String × VersionInfo)) (k : String) (v : VersionInfo) :
    vlookup (dictSet l k v) k = some v := by
  induction l with
  | nil => simp [dictSet, vlookup]
  | cons hd tl ih =>
    by_cases h : hd.1 = k
    · simp [dictSet, vlookup, h]
    · simp [dictSet, vlookup, h, ih]

/-- C10: the version store is isolated from its callers.  `save_version`
snapshots a fresh copy of the caller's frame, so later in-place mutation of
that frame leaves the snapshot untouched; `get_version` hands back a fresh
copy of the snapshot, so mutating the returned frame leaves the snapshot
untouched; and `get_version` on an unknown name returns `None` without
raising. -/
theorem version_store_isolation (mgr : DataVersionManager) (m : Mem) (dfRef : ℕ)
    (name : String) (desc : Option String) (now : String)
    (href : dfRef < m.next) :
    (vlookup (save_version mgr m dfRef name desc now).1.versions name).map
      VersionInfo.dataRef = some m.next ∧
    memRead (save_version mgr m dfRef name desc now).2.1 m.next = memRead m dfRef ∧
    (∀ df2, memRead (memWrite (save_version mgr m dfRef name desc now).2.1 dfRef df2) m.next
      = memRead m dfRef) ∧
    (∀ (mgr2 : DataVersionManager) (m2 : Mem) (info : VersionInfo),
      vlookup mgr2.versions name = some info → info.dataRef < m2.next →
      (get_version mgr2 m2 name).2 = some m2.next ∧
      memRead (get_version mgr2 m2 name).1 m2.next = memRead m2 info.dataRef ∧
      (∀ df2, memRead (memWrite (get_version mgr2 m2 name).1 m2.next df2) info.dataRef
        = memRead m2 info.dataRef)) ∧
    (∀ (mgr3 : DataVersionManager) (m3 : Mem) (nm : String),
      vlookup mgr3.versions nm = none → get_version mgr3 m3 nm = (m3, none)) := by
  have hne : m.next ≠ dfRef := Nat.ne_of_gt href
  refine ⟨?_, ?_, ?_, ?_, ?_⟩
  · simp [save_version, dictSet_vlookup, memAlloc]
  · simp [save_version, memAlloc, memRead]
  · intro df2
    simp [save_version, memAlloc, memRead, memWrite, hne]
  · intro mgr2 m2 info hlk hlt
    have hne2 : info.dataRef ≠ m2.next := Nat.ne_of_lt hlt
    refine ⟨?_, ?_, ?_⟩
    · simp [get_version, hlk, memAlloc]
    · simp [get_version, hlk, memAlloc, memRead]
    · intro df2
      simp [get_version, hlk, memAlloc, memRead, memWrite, hne2]
  · intro mgr3 m3 nm hnone
    simp [get_version, hnone]

theorem version_store_isolation_witness :
    (0 : ℕ) < wmem.next ∧
    ((vlookup (save_version wmgr wmem 0 "original" none "t0").1.versions "original").map
      VersionInfo.dataRef = some wmem.next ∧
    memRead (save_version wmgr wmem 0 "original" none "t0").2.1 wmem.next = memRead wmem 0 ∧
    (∀ df2, memRead (memWrite (save_version wmgr wmem 0 "original" none "t0").2.1 0 df2) wmem.next
      = memRead wmem 0) ∧
    (∀ (mgr2 : DataVersionManager) (m2 : Mem) (info : VersionInfo),
      vlookup mgr2.versions "original" = some info → info.dataRef < m2.next →
      (get_version mgr2 m2 "original").2 = some m2.next ∧
      memRead (get_version mgr2 m2 "original").1 m2.next = memRead m2 info.dataRef ∧
      (∀ df2, memRead (memWrite (get_version mgr2 m2 "original").1 m2.next df2) info.dataRef
        = memRead m2 info.dataRef)) ∧
    (∀ (mgr3 : DataVersionManager) (m3 : Mem) (nm : String),
      vlookup mgr3.versions nm = none → get_version mgr3 m3 nm = (m3, none))) :=
  ⟨by decide, version_store_isolation wmgr wmem 0 "original" none "t0" (by decide)⟩

/-! ## C4 — the 10/0/0/10 contingency table -/

/-- C4 counterexample: on the table `[[10, 0], [0, 10]]` every expected cell
equals exactly 5, which is *not* below 5, so the code keeps the chi-square
variant (the claim predicts Fisher's exact test), and with Yates' correction
`chi2_contingency` returns χ² = 16.2, giving Cramér's V = 0.9, not 1.0. -/
theorem chisquare_2x2_counterexample :
    getKey (run_chisquare crows "v1" "v2" (1/20)
        { chi2_p := 57/1000000, empty_msg := "zero-size array", fisher := .ok (3, 1/1000) })
      "test_type" = some (.str "Chi-square Test of Independence") ∧
    getPath (run_chisquare crows "v1" "v2" (1/20)
        { chi2_p := 57/1000000, empty_msg := "zero-size array", fisher := .ok (3, 1/1000) })
      ["effect_size", "cramers_v"] = some (.num (9/10)) ∧
    Val.str "Chi-square Test of Independence" ≠ Val.str "Fisher's Exact Test" ∧
    (9 : ℚ)/10 ≠ 1 :=
  ⟨by with_unfolding_all rfl, by with_unfolding_all rfl, by simp, by norm_num⟩

/-- C4 (amended): on the table `[[10, 0], [0, 10]]` the association test
reports the chi-square variant (all expected cells equal exactly 5, so the
`< 5` trigger for Fisher's exact test does not fire), the p-value passed
through from the χ² distribution rounded to 4 decimals, and Cramér's V = 0.9
(from the Yates-corrected χ² = 16.2) with qualitative interpretation
'large'. -/
theorem chisquare_2x2_report (p : ℚ) (emsg : String) (fo : Except String (ℚ × ℚ)) :
    getKey (run_chisquare crows "v1" "v2" (1/20) ⟨p, emsg, fo⟩) "test_type"
      = some (.str "Chi-square Test of Independence") ∧
    getPath (run_chisquare crows "v1" "v2" (1/20) ⟨p, emsg, fo⟩) ["effect_size", "cramers_v"]
      = some (.num (9/10)) ∧
    getPath (run_chisquare crows "v1" "v2" (1/20) ⟨p, emsg, fo⟩)
      ["effect_size", "interpretation"] = some (.str "large") ∧
    getKey (run_chisquare crows "v1" "v2" (1/20) ⟨p, emsg, fo⟩) "p_value"
      = some (.num (round4 p)) := by
  refine ⟨?_, ?_, ?_, ?_⟩ <;> with_unfolding_all rfl

/-! ## C5 — rounding at record construction -/

/-- C5 counterexample: for the table with counts `a/x = 1, a/y = 2, b/x = 3,
b/y = 5` the exact expected count of cell (a, x) is `3·4/11 = 12/11`; the
record stores it rounded to 2 decimals (1.09), which differs from the
4-decimal rounding 1.0909 the claim asserts for every numeric field. -/
theorem chisquare_expected_round2_counterexample :
    getPath (run_chisquare c5rows "v1" "v2" (1/20)
        { chi2_p := 1/2, empty_msg := "zero-size array", fisher := .ok (2, 3/100) })
      ["contingency_table", "expected", "x", "a"] = some (.num (109/100)) ∧
    round4 (12/11) = 10909/10000 ∧
    (109 : ℚ)/100 ≠ 10909/10000 :=
  ⟨by with_unfolding_all rfl, by with_unfolding_all rfl, by norm_num⟩

theorem wr_round4 (p : String) (x : ℚ) : wr p (.num (round4 x)) = true := by
  simp [wr, beq_iff_eq, round4_idem]

theorem wr_round2 (p : String) (x : ℚ) : wr p (.num (round2 x)) = true := by
  simp [wr, beq_iff_eq, round4_round2]

theorem r2v_round2 (x : ℚ) : r2v (.num (round2 x)) = true := by
  simp [r2v, beq_iff_eq]
  exact pyround_idem x 2

theorem wr_natCast (p : String) (n : ℕ) : wr p (.num (n : ℚ)) = true := by
  simp [wr, beq_iff_eq, round4_natCast]

theorem r2v_natCast (n : ℕ) : r2v (.num (n : ℚ)) = true := by
  have h : round2 ((n : ℚ)) = (n : ℚ) := by
    have h2 : ((n : ℚ) * ((10 ^ 2 : ℕ) : ℚ)) = (((n * 10 ^ 2 : ℕ) : ℤ) : ℚ) := by push_cast; ring
    unfold round2 pyround
    rw [h2, half_even_intCast]
    push_cast
    field_simp
  simp [r2v, beq_iff_eq, h]

theorem wr_intCast (p : String) (k : ℤ) : wr p (.num (k : ℚ)) = true := by
  simp [wr, beq_iff_eq, round4_intCast]

theorem wr_df2 (p : String) (a b : ℕ) : wr p (.num ((a : ℚ) + (b : ℚ) - 2)) = true := by
  have h : ((a : ℚ) + (b : ℚ) - 2) = (((a : ℤ) + (b : ℤ) - 2 : ℤ) : ℚ) := by push_cast; ring
  rw [h]
  exact wr_intCast p _

theorem wr_subCast (p : String) (a b : ℕ) : wr p (.num ((a : ℚ) - (b : ℚ))) = true := by
  have h : ((a : ℚ) - (b : ℚ)) = (((a : ℤ) - (b : ℤ) : ℤ) : ℚ) := by push_cast; ring
  rw [h]
  exact wr_intCast p _

theorem wr_sub1 (p : String) (a : ℕ) : wr p (.num ((a : ℚ) - 1)) = true := by
  have h : ((a : ℚ) - 1) = (((a : ℤ) - 1 : ℤ) : ℚ) := by push_cast; ring
  rw [h]
  exact wr_intCast p _

theorem round4_cast_mul (a b : ℕ) : round4 ((a : ℚ) * (b : ℚ)) = (a : ℚ) * (b : ℚ) := by
  have h : (a : ℚ) * (b : ℚ) = ((a * b : ℕ) : ℚ) := by push_cast; ring
  rw [h, round4_natCast]

theorem round4_zero : round4 0 = 0 := by
  simpa using round4_natCast 0

theorem wr_rQn4 (p : String) (x : Qn) : wr p (rQn x 4) = true := by
  cases x with
  | none => simp [rQn, wr]
  | some q =>
    simp [rQn, wr, beq_iff_eq]
    exact pyround_idem q 4

theorem wr_shapiroField (p : String) (ng : Option (ℚ × ℚ)) (pick : (ℚ × ℚ) → ℚ) :
    wr p (shapiroField ng pick) = true := by
  cases ng with
  | none => simp [shapiroField, wr]
  | some wp =>
    simp only [shapiroField]
    split
    · simp [wr]
    · exact wr_round4 p _

theorem wr_shapiroVerdict (p : String) (ng : Option (ℚ × ℚ)) (alpha : ℚ) :
    wr p (shapiroVerdict ng alpha) = true := by
  cases ng with
  | none => simp [shapiroVerdict, wr]
  | some wp =>
    simp only [shapiroVerdict]
    split <;> simp [wr]

theorem wr_truthyNumField (p : String) (x : Option ℚ) : wr p (truthyNumField x) = true := by
  cases x with
  | none => simp [truthyNumField, wr]
  | some v =>
    simp only [truthyNumField]
    split
    · simp [wr]
    · exact wr_round4 p _

theorem wrL_of_all {α : Type} (p : String) (f : α → Val) (l : List α)
    (h : ∀ a, wr p (f a) = true) : wrL p (l.map f) = true := by
  induction l with
  | nil => simp [wrL]
  | cons hd tl ih => simp [wrL, h, ih]

/-- Fields whose key may coincide with a reserved one are safe as soon as the
value satisfies both rounding disciplines (a 2-decimal value is also a
4-decimal one). -/
theorem wrF_cons_both (p k : String) (v : Val) (rest : List (String × Val))
    (h4 : wr k v = true) (h2 : r2v v = true) (hrest : wrF p rest = true) :
    wrF p ((k, v) :: rest) = true := by
  simp only [wrF, hrest, Bool.and_true]
  split
  · rfl
  · split
    · exact h2
    · split
      · exact h2
      · exact h4

theorem wrF_of_all_both {α : Type} (p : String) (key : α → String) (f : α → Val) (l : List α)
    (h4 : ∀ a, wr (key a) (f a) = true) (h2 : ∀ a, r2v (f a) = true) :
    wrF p (l.map (fun a => (key a, f a))) = true := by
  induction l with
  | nil => simp [wrF]
  | cons hd tl ih => exact wrF_cons_both p (key hd) (f hd) _ (h4 hd) (h2 hd) ih

theorem wrF_of_all_safe {α : Type} (p : String) (key : α → String) (f : α → Val)
    (l : List α) (hp1 : ¬p = "top") (hp2 : ¬p = "contingency_table")
    (hp3 : ¬p = "expected_cell_counts") (h4 : ∀ a, wr (key a) (f a) = true) :
    wrF p (l.map (fun a => (key a, f a))) = true := by
  induction l with
  | nil => simp [wrF]
  | cons hd tl ih =>
    simp only [List.map_cons, wrF, ih, Bool.and_true]
    rw [if_neg (by simp [hp1]), if_neg (by simp [hp2]), if_neg (by simp [hp3])]
    exact h4 hd

theorem round4_add_cast_sub_two (a b : ℕ) : round4 ((a : ℚ) + (b : ℚ) - 2) = (a : ℚ) + (b : ℚ) - 2 := by
  have h : ((a : ℚ) + (b : ℚ) - 2) = (((a : ℤ) + (b : ℤ) - 2 : ℤ) : ℚ) := by push_cast; ring
  rw [h, round4_intCast]

theorem round4_cast_sub (a b : ℕ) : round4 ((a : ℚ) - (b : ℚ)) = (a : ℚ) - (b : ℚ) := by
  have h : ((a : ℚ) - (b : ℚ)) = (((a : ℤ) - (b : ℤ) : ℤ) : ℚ) := by push_cast; ring
  rw [h, round4_intCast]

theorem round4_cast_sub_one (a : ℕ) : round4 ((a : ℚ) - 1) = (a : ℚ) - 1 := by
  have h : ((a : ℚ) - 1) = (((a : ℤ) - 1 : ℤ) : ℚ) := by push_cast; ring
  rw [h, round4_intCast]

theorem wr_groupStatsRec (p : String) (g : List ℚ) : wr p (groupStatsRec g) = true := by
  simp [groupStatsRec, wr, wrF, wr_natCast, wr_round4, wr_rQn4, beq_iff_eq, round4_idem,
    round4_natCast]

theorem wr_rankGroupRec (p : String) (g : List ℚ) : wr p (rankGroupRec g) = true := by
  simp [rankGroupRec, wr, wrF, wr_natCast, wr_round4, beq_iff_eq, round4_idem, round4_natCast]

theorem ttest_wellRounded (rows : List (Option String × Option ℚ)) (gv ov : String)
    (paired : Bool) (alpha : ℚ) (o : TTestOracle) :
    wr "top" (run_ttest rows gv ov paired alpha o) = true := by
  simp only [run_ttest, ttest_finish]
  repeat' split
  all_goals
    simp [errRec, ttest_record, wr, wrF, wrL, wr_round4, wr_rQn4, wr_natCast, wr_df2,
      wr_shapiroField, wr_shapiroVerdict, beq_iff_eq, round4_idem, round4_natCast,
      round4_add_cast_sub_two, round4_cast_sub, round4_cast_sub_one]

theorem r2F_of_all {α : Type} (key : α → String) (f : α → Val) (l : List α)
    (h : ∀ a, r2v (f a) = true) : r2F (l.map (fun a => (key a, f a))) = true := by
  induction l with
  | nil => simp [r2F]
  | cons hd tl ih => simp [r2F, h, ih]

theorem wrF_groupStats_map (df : List (String × ℚ)) (gs : List String) :
    wrF "group_statistics" (gs.map (fun g => (g, groupStatsRec (groupData df g)))) = true :=
  wrF_of_all_safe _ _ _ _ (by simp) (by simp) (by simp) (fun g => wr_groupStatsRec g _)

theorem wrF_rankStats_map (df : List (String × ℚ)) (gs : List String) :
    wrF "group_statistics" (gs.map (fun g => (g, rankGroupRec (groupData df g)))) = true :=
  wrF_of_all_safe _ _ _ _ (by simp) (by simp) (by simp) (fun g => wr_rankGroupRec g _)

theorem wrL_strs (p : String) (l : List String) : wrL p (l.map Val.str) = true :=
  wrL_of_all p Val.str l (fun _ => by simp [wr])

theorem wrL_tukey (tk : List (String × String × ℚ × ℚ × ℚ × ℚ × Bool)) :
    wrL "comparisons" (tk.map (fun row => Val.obj [
      ("group1", .str row.1),
      ("group2", .str row.2.1),
      ("mean_diff", .num (round4 row.2.2.1)),
      ("p_adj", .num (round4 row.2.2.2.1)),
      ("ci_lower", .num (round4 row.2.2.2.2.1)),
      ("ci_upper", .num (round4 row.2.2.2.2.2.1)),
      ("significant", .vbool row.2.2.2.2.2.2)])) = true :=
  wrL_of_all _ _ tk (fun row => by
    simp [wr, wrF, beq_iff_eq, round4_idem])

theorem anova_wellRounded (rows : List (Option String × Option ℚ)) (gv ov : String)
    (alpha : ℚ) (o : AnovaOracle) :
    wr "top" (run_anova rows gv ov alpha o) = true := by
  simp only [run_anova]
  repeat' split
  all_goals
    simp [errRec, wr, wrF, wr_round4, wr_rQn4, wr_natCast, beq_iff_eq, round4_idem,
      round4_natCast, round4_add_cast_sub_two, round4_cast_sub, round4_cast_sub_one,
      wrF_groupStats_map, wrL_tukey, wrL_strs, wrL]

theorem wr_observedTable (rowLabels colLabels : List String) (count : String → String → ℕ) :
    wrF "observed" (colLabels.map (fun c =>
      (c, Val.obj (rowLabels.map (fun r => (r, Val.num (count r c : ℚ))))))) = true :=
  wrF_of_all_both _ _ _ _
    (fun c => by
      simp only [wr]
      exact wrF_of_all_both _ _ _ _ (fun r => wr_natCast _ _) (fun r => r2v_natCast _))
    (fun c => by
      simp only [r2v]
      exact r2F_of_all _ _ _ (fun r => r2v_natCast _))

theorem r2v_expectedTable (rowLabels colLabels : List String)
    (expected : String → String → ℚ) :
    r2v (Val.obj (colLabels.map (fun c =>
      (c, Val.obj (rowLabels.map (fun r => (r, Val.num (round2 (expected r c))))))))) = true := by
  simp only [r2v]
  exact r2F_of_all _ _ _ (fun c => by
    simp only [r2v]
    exact r2F_of_all _ _ _ (fun r => r2v_round2 _))

theorem chisquare_wellRounded (rows : List (Option String × Option String)) (v1 v2 : String)
    (alpha : ℚ) (o : ChisqOracle) :
    wr "top" (run_chisquare rows v1 v2 alpha o) = true := by
  simp only [run_chisquare, chisq_record]
  repeat' split
  all_goals
    simp [errRec, wr, wrF, wrL, wr_round4, wr_natCast, wr_truthyNumField, beq_iff_eq,
      round4_idem, round4_natCast, round4_cast_mul, round4_zero, r2v_round2,
      wr_observedTable, r2v_expectedTable]

theorem correlation_wellRounded (rows : List (Option ℚ × Option ℚ)) (v1 v2 m : String)
    (alpha : ℚ) (o : CorrOracle) :
    wr "top" (run_correlation rows v1 v2 m alpha o) = true := by
  simp only [run_correlation]
  repeat' split
  all_goals
    simp [errRec, wr, wrF, wrL, wr_round4, wr_rQn4, wr_natCast, beq_iff_eq, round4_idem,
      round4_natCast]

theorem wr_olsCoefRec (q : String) (fit : OLSFit) (i : ℕ) (var : String) (beta : Option Qn)
    (alpha : ℚ) : wr q (olsCoefRec fit i var beta alpha) = true := by
  cases beta <;>
    simp [olsCoefRec, wr, wrF, wr_round4, wr_rQn4, beq_iff_eq, round4_idem]

theorem wr_num_eq (p : String) (q : ℚ) : wr p (.num q) = (round4 q == q) := by simp [wr]

theorem wr_nan_eq (p : String) : wr p .nan = true := by simp [wr]

theorem wr_str_eq (p s : String) : wr p (.str s) = true := by simp [wr]

theorem wr_vbool_eq (p : String) (b : Bool) : wr p (.vbool b) = true := by simp [wr]

theorem wr_vnull_eq (p : String) : wr p .vnull = true := by simp [wr]

theorem wr_pair_eq (p : String) (a b : Val) : wr p (.pair a b) = (wr p a && wr p b) := by
  simp [wr]

theorem wr_obj_eq (p : String) (fs : List (String × Val)) : wr p (.obj fs) = wrF p fs := by
  simp [wr]

theorem wr_arr_eq (p : String) (vs : List Val) : wr p (.arr vs) = wrL p vs := by simp [wr]

theorem wrF_nil_eq (p : String) : wrF p [] = true := by simp [wrF]

theorem wrF_cons_eq (p k : String) (v : Val) (rest : List (String × Val)) :
    wrF p ((k, v) :: rest) =
      ((if p = "top" ∧ k = "alpha" then true
        else if p = "contingency_table" ∧ k = "expected" then r2v v
        else if p = "expected_cell_counts" ∧ k = "min_expected" then r2v v
        else wr k v) && wrF p rest) := by
  simp [wrF]

theorem wrL_nil_eq (p : String) : wrL p [] = true := by simp [wrL]

theorem wrL_cons_eq (p : String) (v : Val) (rest : List Val) :
    wrL p (v :: rest) = (wr p v && wrL p rest) := by simp [wrL]

theorem wrL_olsCoefList (p : String) (fit : OLSFit) (cleaned : List (ℚ × List ℚ))
    (predictors : List String) (alpha : ℚ) :
    wrL p (olsCoefList fit cleaned predictors alpha) = true :=
  wrL_of_all _ _ _ (fun a => wr_olsCoefRec p fit _ _ _ alpha)

theorem wrL_vifRows (p : String) (o : OLSOracle) (preds : List String) :
    ∀ (i : ℕ) (vs : List Val), vifRows.go o i preds = .ok vs → wrL p vs = true := by
  induction preds with
  | nil =>
    intro i vs h
    simp only [vifRows.go] at h
    cases h
    simp [wrL]
  | cons hd tl ih =>
    intro i vs h
    simp only [vifRows.go] at h
    cases hvif : o.vif i with
    | error e => rw [hvif] at h; cases h
    | ok w =>
      rw [hvif] at h
      cases hgo : vifRows.go o (i + 1) tl with
      | error e => rw [hgo] at h; cases h
      | ok tail =>
        rw [hgo] at h
        cases h
        simp [wrL, wr, wrF, wr_round4, beq_iff_eq, round4_idem, ih (i + 1) tail hgo]

theorem linreg_wellRounded (rows : List (Option ℚ × List (Option ℚ))) (outcome : String)
    (predictors : List String) (alpha : ℚ) (o : OLSOracle) :
    wr "top" (run_linear_regression rows outcome predictors alpha o) = true := by
  simp only [run_linear_regression]
  rcases o.fit with e | fit
  · simp [errRec, wr, wrF]
  · rcases hvd : (if 1 < predictors.length then vifRows o predictors else Except.ok [])
      with e | vif_data
    · simp [errRec, wr, wrF]
    · have hwrl : wrL "multicollinearity" vif_data = true := by
        by_cases hp : 1 < predictors.length
        · rw [if_pos hp] at hvd
          exact wrL_vifRows _ o predictors 0 vif_data (by simpa [vifRows] using hvd)
        · rw [if_neg hp] at hvd
          cases hvd
          simp [wrL]
      rcases shapiroCall2 o.shapiro_resid ((dropnaRows rows).length ≤ 5000) with e | sh
      · simp [errRec, wr, wrF]
      · rcases o.breusch_pagan with e | bp
        · simp [errRec, wr, wrF]
        · by_cases hemp : vif_data.isEmpty <;>
            simp [hemp, wr_obj_eq, wrF_cons_eq, wrF_nil_eq, wr_str_eq, wr_num_eq,
              wr_vbool_eq, wr_vnull_eq, wr_nan_eq, wr_pair_eq, wr_arr_eq, wr_rQn4,
              beq_iff_eq, round4_idem, round4_natCast, wr_shapiroField, wr_shapiroVerdict,
              hwrl, wrL_olsCoefList, wrL_strs]

theorem wr_logitCoefRec (q : String) (fit : LogitFit) (expf : ℚ → ℚ) (i : ℕ) (var : String)
    (alpha : ℚ) : wr q (logitCoefRec fit expf i var alpha) = true := by
  simp [logitCoefRec, wr, wrF, wr_round4, beq_iff_eq, round4_idem]

theorem wrL_logitCoefList (p : String) (fit : LogitFit) (expf : ℚ → ℚ)
    (predictors : List String) (alpha : ℚ) :
    wrL p (logitCoefList fit expf predictors alpha) = true :=
  wrL_of_all _ _ _ (fun a => wr_logitCoefRec p fit expf _ _ alpha)

theorem wrL_intCasts (p : String) (row : List ℤ) :
    wrL p (row.map (fun (k : ℤ) => Val.num (k : ℚ))) = true := by
  induction row with
  | nil => rw [List.map_nil, wrL_nil_eq]
  | cons h t ih => rw [List.map_cons, wrL_cons_eq, ih, wr_intCast, Bool.and_self]

theorem wr_confusionVal (p : String) (cm : List (List ℤ)) :
    wr p (confusionVal cm) = true := by
  have h : confusionVal cm
      = .arr (cm.map (fun row => .arr (row.map (fun (k : ℤ) => .num (k : ℚ))))) := rfl
  rw [h, wr_arr_eq]
  refine wrL_of_all _ _ _ (fun row => ?_)
  rw [wr_arr_eq]
  exact wrL_intCasts p row

theorem logreg_wellRounded (rows : List (Option ℚ × List (Option ℚ))) (outcome : String)
    (predictors : List String) (alpha : ℚ) (o : LogitOracle) :
    wr "top" (run_logistic_regression rows outcome predictors alpha o) = true := by
  simp only [run_logistic_regression]
  repeat' split
  all_goals
    simp [errRec, wr_obj_eq, wrF_cons_eq, wrF_nil_eq, wr_str_eq, wr_num_eq, wr_vbool_eq,
      wr_vnull_eq, wr_nan_eq, wr_pair_eq, wr_arr_eq, beq_iff_eq, round4_idem,
      round4_natCast, wrL_logitCoefList, wr_confusionVal, wrL_strs]

theorem mannwhitney_wellRounded (rows : List (Option String × Option ℚ)) (gv ov : String)
    (alpha : ℚ) (u : Except String (ℚ × ℚ)) :
    wr "top" (run_mannwhitney rows gv ov alpha u) = true := by
  simp only [run_mannwhitney]
  repeat' split
  all_goals
    simp [errRec, rankGroupRec, wr, wrF, wrL, wr_round4, wr_natCast, beq_iff_eq,
      round4_idem, round4_natCast]

theorem kruskal_wellRounded (rows : List (Option String × Option ℚ)) (gv ov : String)
    (alpha : ℚ) (h : Except String (ℚ × ℚ)) :
    wr "top" (run_kruskal rows gv ov alpha h) = true := by
  simp only [run_kruskal]
  repeat' split
  all_goals
    simp [errRec, wr, wrF, wr_round4, wr_natCast, beq_iff_eq, round4_idem,
      round4_natCast, round4_cast_sub_one, wrF_rankStats_map, wrL_strs]

/-- C5 (amended): every numeric value a statistical test routine places in a
result record is rounded at the point of record construction — to 4 decimal
places everywhere, except that the expected-cell table and the minimum
expected count of the association test are rounded to 2 decimal places, and
the `alpha` echo field is stored as provided without rounding.  (`wr "top"`
checks exactly this discipline over a whole record, nested blocks
included.) -/
theorem records_rounding_discipline :
    (∀ rows gv ov paired alpha o, wr "top" (run_ttest rows gv ov paired alpha o) = true) ∧
    (∀ rows gv ov alpha o, wr "top" (run_anova rows gv ov alpha o) = true) ∧
    (∀ rows v1 v2 alpha o, wr "top" (run_chisquare rows v1 v2 alpha o) = true) ∧
    (∀ rows v1 v2 m alpha o, wr "top" (run_correlation rows v1 v2 m alpha o) = true) ∧
    (∀ rows outcome predictors alpha o,
      wr "top" (run_linear_regression rows outcome predictors alpha o) = true) ∧
    (∀ rows outcome predictors alpha o,
      wr "top" (run_logistic_regression rows outcome predictors alpha o) = true) ∧
    (∀ rows gv ov alpha u, wr "top" (run_mannwhitney rows gv ov alpha u) = true) ∧
    (∀ rows gv ov alpha h, wr "top" (run_kruskal rows gv ov alpha h) = true) :=
  ⟨ttest_wellRounded, anova_wellRounded, chisquare_wellRounded, correlation_wellRounded,
    linreg_wellRounded, logreg_wellRounded, mannwhitney_wellRounded, kruskal_wellRounded⟩
